import Mathlib

/-!
# DS3231 real-time-clock driver: register codec and transaction layer

A shallow embedding of `src/ds3231.c` / `src/include/ds3231.h`.

* C integers are `Nat` (`Int` for `esp_err_t`), with explicit truncation where the C
  code stores into a narrower object (`% 2 ^ w` for a `w`-bit bit-field, `% 256` for a
  `uint8_t`, `% 65536` for a `uint16_t`).
* The packed bit-field structures are records of their named bit-fields; the casts
  `(uint8_t*)&image` are the functions `toBytes` / `ofBytes`, which lay the bit-fields
  out least-significant-bit first within each byte (the layout the target compiler uses).
* A local image that the C code declares without an initialiser is a parameter of the
  embedded function (`stack`, or the incoming value of `out`): its bits are whatever the
  memory held.
* The I2C transport is a register file together with the list of results the transport
  will report for the coming transactions and a log of the transactions issued.
-/

namespace DS3231

/-! ## Public data model (`ds3231.h`) -/

/-- Clock mode, `DS3231_ClockType_t`. -/
inductive DS3231_ClockType_t where
  | DS3231_ClockType_12_Hour
  | DS3231_ClockType_24_Hour
  deriving DecidableEq, Repr

/-- Half of the day, `DS3231_AM_PM_t`. -/
inductive DS3231_AM_PM_t where
  | DS3231_AM
  | DS3231_PM
  deriving DecidableEq, Repr

/-- Interpretation of the alarm day, `DS3231_AlarmDayType_t`. -/
inductive DS3231_AlarmDayType_t where
  | DS3231_AlarmDayType_DayOfWeek
  | DS3231_AlarmDayType_DayOfMonth
  deriving DecidableEq, Repr

open DS3231_ClockType_t DS3231_AM_PM_t DS3231_AlarmDayType_t

/-- Calendar value, `DS3231_Calendar_t`. -/
structure DS3231_Calendar_t where
  seconds : Nat
  minutes : Nat
  hour : Nat
  day_of_week : Nat
  day_of_month : Nat
  month : Nat
  year : Nat
  clock_type : DS3231_ClockType_t
  am_pm : DS3231_AM_PM_t
  deriving DecidableEq, Repr

/-- Alarm selector `DS3231_AlarmType_Alarm1 = 1`. -/
def DS3231_AlarmType_Alarm1 : Nat := 1
/-- Alarm selector `DS3231_AlarmType_Alarm2 = 2`. -/
def DS3231_AlarmType_Alarm2 : Nat := 2

/-- Alarm configuration, `DS3231_AlarmSetting_t`.  `alarm_type` and `alarm_rate` are the
raw one-byte values of their packed enumerations. -/
structure DS3231_AlarmSetting_t where
  seconds : Nat
  minutes : Nat
  hour : Nat
  day : Nat
  alarm_type : Nat
  clock_type : DS3231_ClockType_t
  am_pm : DS3231_AM_PM_t
  day_type : DS3231_AlarmDayType_t
  alarm_rate : Nat
  deriving DecidableEq, Repr

/-- Interrupt flag `DS3231_Interrupt_None`. -/
def DS3231_Interrupt_None : Nat := 0x00
/-- Interrupt flag `DS3231_Interrupt_Alarm_1`. -/
def DS3231_Interrupt_Alarm_1 : Nat := 0x01
/-- Interrupt flag `DS3231_Interrupt_Alarm_2`. -/
def DS3231_Interrupt_Alarm_2 : Nat := 0x02

/-- Square wave rate `DS3231_SquareWave_1Hz`. -/
def DS3231_SquareWave_1Hz : Nat := 0x00
/-- Square wave rate `DS3231_SquareWave_1p024kHz`. -/
def DS3231_SquareWave_1p024kHz : Nat := 0x01
/-- Square wave rate `DS3231_SquareWave_4p096kHz`. -/
def DS3231_SquareWave_4p096kHz : Nat := 0x02
/-- Square wave rate `DS3231_SquareWave_8p192kHz`. -/
def DS3231_SquareWave_8p192kHz : Nat := 0x03
/-- Square wave setting `DS3231_SquareWave_Off`. -/
def DS3231_SquareWave_Off : Nat := 0xFF

/-! ## Error codes (`esp_err_t` of the platform SDK) -/

/-- The `esp_err_t` value for success. -/
def ESP_OK : Int := 0
/-- The `esp_err_t` value for a generic failure. -/
def ESP_FAIL : Int := -1
/-- The `esp_err_t` value for an invalid argument. -/
def ESP_ERR_INVALID_ARG : Int := 0x102
/-- The `esp_err_t` value for a timeout. -/
def ESP_ERR_TIMEOUT : Int := 0x107

/-! ## Register addresses (`ds3231.c`) -/

/-- Calendar registers. -/
def DS3231_CAL_REG : Nat := 0x00
/-- Alarm-1 registers. -/
def DS3231_ALM1_REG : Nat := 0x07
/-- Alarm-2 registers. -/
def DS3231_ALM2_REG : Nat := 0x0B
/-- Control register. -/
def DS3231_CTRL_REG : Nat := 0x0E
/-- Control/status register. -/
def DS3231_CS_REG : Nat := 0x0F
/-- Aging offset register. -/
def DS3231_AGE_REG : Nat := 0x10
/-- Temperature registers. -/
def DS3231_TEMP_REG : Nat := 0x11

/-! ## Packed register images -/

/-- The `w`-bit bit-field of byte `b` whose least significant bit is bit `lo`. -/
def bits (b lo w : Nat) : Nat := (b / 2 ^ lo) % 2 ^ w

/-- Byte `i` of a buffer (zero past its end). -/
def byteAt (d : List Nat) (i : Nat) : Nat := d.getD i 0

/-- Calendar register image, `Internal_DS3231_Calendar_t`; the `pad` fields are the
unnamed bit-fields. -/
structure Internal_DS3231_Calendar_t where
  seconds_1s : Nat
  seconds_10s : Nat
  pad0 : Nat
  minutes_1s : Nat
  minutes_10s : Nat
  pad1 : Nat
  hour_1s : Nat
  hour_10s : Nat
  am_pm_hour_20 : Nat
  mode_12_24h : Nat
  pad2 : Nat
  day_of_week : Nat
  pad3 : Nat
  day_of_month_1s : Nat
  day_of_month_10s : Nat
  pad4 : Nat
  month_1s : Nat
  month_10s : Nat
  pad5 : Nat
  century : Nat
  year_1s : Nat
  year_10s : Nat
  deriving DecidableEq, Repr

/-- The seven bytes of a calendar image, as seen through `(uint8_t*)&int_calendar`. -/
def Internal_DS3231_Calendar_t.toBytes (s : Internal_DS3231_Calendar_t) : List Nat :=
  [ s.seconds_1s + 16 * s.seconds_10s + 128 * s.pad0,
    s.minutes_1s + 16 * s.minutes_10s + 128 * s.pad1,
    s.hour_1s + 16 * s.hour_10s + 32 * s.am_pm_hour_20 + 64 * s.mode_12_24h + 128 * s.pad2,
    s.day_of_week + 8 * s.pad3,
    s.day_of_month_1s + 16 * s.day_of_month_10s + 64 * s.pad4,
    s.month_1s + 16 * s.month_10s + 32 * s.pad5 + 128 * s.century,
    s.year_1s + 16 * s.year_10s ]

/-- The calendar image held by seven bytes of memory. -/
def Internal_DS3231_Calendar_t.ofBytes (d : List Nat) : Internal_DS3231_Calendar_t :=
  { seconds_1s := bits (byteAt d 0) 0 4
    seconds_10s := bits (byteAt d 0) 4 3
    pad0 := bits (byteAt d 0) 7 1
    minutes_1s := bits (byteAt d 1) 0 4
    minutes_10s := bits (byteAt d 1) 4 3
    pad1 := bits (byteAt d 1) 7 1
    hour_1s := bits (byteAt d 2) 0 4
    hour_10s := bits (byteAt d 2) 4 1
    am_pm_hour_20 := bits (byteAt d 2) 5 1
    mode_12_24h := bits (byteAt d 2) 6 1
    pad2 := bits (byteAt d 2) 7 1
    day_of_week := bits (byteAt d 3) 0 3
    pad3 := bits (byteAt d 3) 3 5
    day_of_month_1s := bits (byteAt d 4) 0 4
    day_of_month_10s := bits (byteAt d 4) 4 2
    pad4 := bits (byteAt d 4) 6 2
    month_1s := bits (byteAt d 5) 0 4
    month_10s := bits (byteAt d 5) 4 1
    pad5 := bits (byteAt d 5) 5 2
    century := bits (byteAt d 5) 7 1
    year_1s := bits (byteAt d 6) 0 4
    year_10s := bits (byteAt d 6) 4 4 }

/-- Alarm-1 register image, `Internal_DS3231_Alarm1_t`. -/
structure Internal_DS3231_Alarm1_t where
  seconds_1s : Nat
  seconds_10s : Nat
  a1m1 : Nat
  minutes_1s : Nat
  minutes_10s : Nat
  a1m2 : Nat
  hour_1s : Nat
  hour_10s : Nat
  am_pm_hour_20 : Nat
  mode_12_24h : Nat
  a1m3 : Nat
  day_1s : Nat
  day_10s : Nat
  day_of_week_or_month : Nat
  a1m4 : Nat
  deriving DecidableEq, Repr

/-- The four bytes of an alarm-1 image. -/
def Internal_DS3231_Alarm1_t.toBytes (s : Internal_DS3231_Alarm1_t) : List Nat :=
  [ s.seconds_1s + 16 * s.seconds_10s + 128 * s.a1m1,
    s.minutes_1s + 16 * s.minutes_10s + 128 * s.a1m2,
    s.hour_1s + 16 * s.hour_10s + 32 * s.am_pm_hour_20 + 64 * s.mode_12_24h + 128 * s.a1m3,
    s.day_1s + 16 * s.day_10s + 64 * s.day_of_week_or_month + 128 * s.a1m4 ]

/-- The alarm-1 image held by four bytes of memory. -/
def Internal_DS3231_Alarm1_t.ofBytes (d : List Nat) : Internal_DS3231_Alarm1_t :=
  { seconds_1s := bits (byteAt d 0) 0 4
    seconds_10s := bits (byteAt d 0) 4 3
    a1m1 := bits (byteAt d 0) 7 1
    minutes_1s := bits (byteAt d 1) 0 4
    minutes_10s := bits (byteAt d 1) 4 3
    a1m2 := bits (byteAt d 1) 7 1
    hour_1s := bits (byteAt d 2) 0 4
    hour_10s := bits (byteAt d 2) 4 1
    am_pm_hour_20 := bits (byteAt d 2) 5 1
    mode_12_24h := bits (byteAt d 2) 6 1
    a1m3 := bits (byteAt d 2) 7 1
    day_1s := bits (byteAt d 3) 0 4
    day_10s := bits (byteAt d 3) 4 2
    day_of_week_or_month := bits (byteAt d 3) 6 1
    a1m4 := bits (byteAt d 3) 7 1 }

/-- Alarm-2 register image, `Internal_DS3231_Alarm2_t`. -/
structure Internal_DS3231_Alarm2_t where
  minutes_1s : Nat
  minutes_10s : Nat
  a2m2 : Nat
  hour_1s : Nat
  hour_10s : Nat
  am_pm_hour_20 : Nat
  mode_12_24h : Nat
  a2m3 : Nat
  day_1s : Nat
  day_10s : Nat
  day_of_week_or_month : Nat
  a2m4 : Nat
  deriving DecidableEq, Repr

/-- The three bytes of an alarm-2 image. -/
def Internal_DS3231_Alarm2_t.toBytes (s : Internal_DS3231_Alarm2_t) : List Nat :=
  [ s.minutes_1s + 16 * s.minutes_10s + 128 * s.a2m2,
    s.hour_1s + 16 * s.hour_10s + 32 * s.am_pm_hour_20 + 64 * s.mode_12_24h + 128 * s.a2m3,
    s.day_1s + 16 * s.day_10s + 64 * s.day_of_week_or_month + 128 * s.a2m4 ]

/-- The alarm-2 image held by three bytes of memory. -/
def Internal_DS3231_Alarm2_t.ofBytes (d : List Nat) : Internal_DS3231_Alarm2_t :=
  { minutes_1s := bits (byteAt d 0) 0 4
    minutes_10s := bits (byteAt d 0) 4 3
    a2m2 := bits (byteAt d 0) 7 1
    hour_1s := bits (byteAt d 1) 0 4
    hour_10s := bits (byteAt d 1) 4 1
    am_pm_hour_20 := bits (byteAt d 1) 5 1
    mode_12_24h := bits (byteAt d 1) 6 1
    a2m3 := bits (byteAt d 1) 7 1
    day_1s := bits (byteAt d 2) 0 4
    day_10s := bits (byteAt d 2) 4 2
    day_of_week_or_month := bits (byteAt d 2) 6 1
    a2m4 := bits (byteAt d 2) 7 1 }

/-- Control register image, `Internal_DS3231_Control_t`. -/
structure Internal_DS3231_Control_t where
  alarm1_intr_en : Nat
  alarm2_intr_en : Nat
  intr_control : Nat
  rs : Nat
  conv : Nat
  bbsqw : Nat
  osc_en_n : Nat
  deriving DecidableEq, Repr

/-- The byte of a control image. -/
def Internal_DS3231_Control_t.toBytes (s : Internal_DS3231_Control_t) : List Nat :=
  [ s.alarm1_intr_en + 2 * s.alarm2_intr_en + 4 * s.intr_control + 8 * s.rs
      + 32 * s.conv + 64 * s.bbsqw + 128 * s.osc_en_n ]

/-- The control image held by one byte of memory. -/
def Internal_DS3231_Control_t.ofBytes (d : List Nat) : Internal_DS3231_Control_t :=
  { alarm1_intr_en := bits (byteAt d 0) 0 1
    alarm2_intr_en := bits (byteAt d 0) 1 1
    intr_control := bits (byteAt d 0) 2 1
    rs := bits (byteAt d 0) 3 2
    conv := bits (byteAt d 0) 5 1
    bbsqw := bits (byteAt d 0) 6 1
    osc_en_n := bits (byteAt d 0) 7 1 }

/-- Control/status register image, `Internal_DS3231_CtrlStat_t`. -/
structure Internal_DS3231_CtrlStat_t where
  a1f : Nat
  a2f : Nat
  bsy : Nat
  en32kHz : Nat
  pad0 : Nat
  osf : Nat
  deriving DecidableEq, Repr

/-- The byte of a control/status image. -/
def Internal_DS3231_CtrlStat_t.toBytes (s : Internal_DS3231_CtrlStat_t) : List Nat :=
  [ s.a1f + 2 * s.a2f + 4 * s.bsy + 8 * s.en32kHz + 16 * s.pad0 + 128 * s.osf ]

/-- The control/status image held by one byte of memory. -/
def Internal_DS3231_CtrlStat_t.ofBytes (d : List Nat) : Internal_DS3231_CtrlStat_t :=
  { a1f := bits (byteAt d 0) 0 1
    a2f := bits (byteAt d 0) 1 1
    bsy := bits (byteAt d 0) 2 1
    en32kHz := bits (byteAt d 0) 3 1
    pad0 := bits (byteAt d 0) 4 3
    osf := bits (byteAt d 0) 7 1 }

/-! ## Calendar codec -/

/-- The 12/24-hour part of `ds3231_convert_ext_calendar` (lines 437-456): in 24-hour mode
with `hour <= 9` neither `am_pm_hour_20` nor `hour_10s` is assigned. -/
def ds3231_convert_ext_calendar_hour (i : DS3231_Calendar_t)
    (out : Internal_DS3231_Calendar_t) : Internal_DS3231_Calendar_t :=
  if i.clock_type = DS3231_ClockType_12_Hour then
    let out := { out with mode_12_24h := 1 }
    let out := { out with am_pm_hour_20 := if i.am_pm = DS3231_PM then 1 else 0 }
    { out with hour_10s := (i.hour / 10) % 2 }
  else
    let out := { out with mode_12_24h := 0 }
    if i.hour > 19 then
      let out := { out with am_pm_hour_20 := 1 }
      { out with hour_10s := 0 }
    else if i.hour > 9 then
      let out := { out with am_pm_hour_20 := 0 }
      { out with hour_10s := (i.hour / 10) % 2 }
    else
      out

/-- The year part of `ds3231_convert_ext_calendar` (lines 465-478); `year` is a
`uint16_t`. -/
def ds3231_convert_ext_calendar_year (i : DS3231_Calendar_t)
    (out : Internal_DS3231_Calendar_t) : Internal_DS3231_Calendar_t :=
  let year := i.year % 65536
  let (out, year) :=
    if year > 2099 then
      ({ out with century := 1 }, (year + 65536 - 2100) % 65536)
    else
      ({ out with century := 0 }, (year + 65536 - 2000) % 65536)
  let out := { out with year_1s := (year % 10) % 16 }
  { out with year_10s := (year / 10) % 16 }

/-- External calendar to register image, `ds3231_convert_ext_calendar`.  `out` comes in
holding whatever the caller's buffer held; only the assigned bit-fields change. -/
def ds3231_convert_ext_calendar (i : DS3231_Calendar_t)
    (out : Internal_DS3231_Calendar_t) : Internal_DS3231_Calendar_t :=
  let out := { out with seconds_1s := (i.seconds % 10) % 16 }
  let out := { out with seconds_10s := (i.seconds / 10) % 8 }
  let out := { out with minutes_1s := (i.minutes % 10) % 16 }
  let out := { out with minutes_10s := (i.minutes / 10) % 8 }
  let out := { out with hour_1s := (i.hour % 10) % 16 }
  let out := ds3231_convert_ext_calendar_hour i out
  let out := { out with day_of_week := i.day_of_week % 8 }
  let out := { out with day_of_month_1s := (i.day_of_month % 10) % 16 }
  let out := { out with day_of_month_10s := (i.day_of_month / 10) % 4 }
  let out := { out with month_1s := (i.month % 10) % 16 }
  let out := { out with month_10s := (i.month / 10) % 2 }
  ds3231_convert_ext_calendar_year i out

/-- Register image to external calendar, `ds3231_convert_int_calendar`.  `out` comes in
holding the caller's value; `am_pm` is assigned only in 12-hour mode. -/
def ds3231_convert_int_calendar (out : DS3231_Calendar_t)
    (i : Internal_DS3231_Calendar_t) : DS3231_Calendar_t :=
  let out := { out with seconds := (i.seconds_10s * 10 + i.seconds_1s) % 256 }
  let out := { out with minutes := (i.minutes_10s * 10 + i.minutes_1s) % 256 }
  let out :=
    if i.mode_12_24h ≠ 0 then
      let out := { out with clock_type := DS3231_ClockType_12_Hour }
      let out := { out with hour := (i.hour_10s * 10 + i.hour_1s) % 256 }
      { out with am_pm := if i.am_pm_hour_20 ≠ 0 then DS3231_PM else DS3231_AM }
    else
      let out := { out with clock_type := DS3231_ClockType_24_Hour }
      { out with hour := (i.am_pm_hour_20 * 20 + i.hour_10s * 10 + i.hour_1s) % 256 }
  let out := { out with day_of_week := i.day_of_week % 256 }
  let out := { out with day_of_month := (i.day_of_month_10s * 10 + i.day_of_month_1s) % 256 }
  let out := { out with month := (i.month_10s * 10 + i.month_1s) % 256 }
  { out with year := (2000 + i.century * 100 + i.year_10s * 10 + i.year_1s) % 65536 }

/-! ## Transport -/

/-- A transaction issued on the bus: a read of `len` bytes starting at register `reg`, or
a write of `data` starting at register `reg`. -/
inductive BusOp where
  | read (reg len : Nat)
  | write (reg : Nat) (data : List Nat)
  deriving DecidableEq, Repr

/-- The device behind the handle `cfg`, as the driver sees it: the register file (a device
that stores written bytes unchanged), the results the transport will report for the coming
transactions in order (`ESP_OK` once the list is exhausted), and the transactions issued so
far. -/
structure Bus where
  regs : Nat → Nat
  results : List Int
  log : List BusOp

/-- Result of the next transaction (`i2c_master_cmd_begin`). -/
def Bus.next (bus : Bus) : Int × Bus :=
  match bus.results with
  | [] => (ESP_OK, bus)
  | r :: rs => (r, { bus with results := rs })

/-- One read transaction, `ds3231_i2c_read`: on success the buffer receives `data_len`
register bytes; on failure the buffer keeps what it held. -/
def ds3231_i2c_read (bus : Bus) (reg : Nat) (data : List Nat) (data_len : Nat) :
    Int × List Nat × Bus :=
  let (res, bus) := bus.next
  let bus := { bus with log := bus.log ++ [BusOp.read reg data_len] }
  if res = ESP_OK then
    (res, (List.range data_len).map (fun k => bus.regs (reg + k) % 256), bus)
  else
    (res, data, bus)

/-- One write transaction, `ds3231_i2c_write`: on success the device stores the `data_len`
bytes sent; on failure the registers keep what they held. -/
def ds3231_i2c_write (bus : Bus) (reg : Nat) (data : List Nat) (data_len : Nat) : Int × Bus :=
  let (res, bus) := bus.next
  let sent := data.take data_len
  let bus := { bus with log := bus.log ++ [BusOp.write reg sent] }
  if res = ESP_OK then
    (res, { bus with regs := fun a =>
              if reg ≤ a ∧ a < reg + sent.length then byteAt sent (a - reg) else bus.regs a })
  else
    (res, bus)

/-- Read of the control register, `ds3231_get_ctrl`. -/
def ds3231_get_ctrl (bus : Bus) (ctrl : Internal_DS3231_Control_t) :
    Int × Internal_DS3231_Control_t × Bus :=
  let (res, data, bus) := ds3231_i2c_read bus DS3231_CTRL_REG ctrl.toBytes 1
  (res, Internal_DS3231_Control_t.ofBytes data, bus)

/-- Write of the control register, `ds3231_set_ctrl`. -/
def ds3231_set_ctrl (bus : Bus) (ctrl : Internal_DS3231_Control_t) : Int × Bus :=
  ds3231_i2c_write bus DS3231_CTRL_REG ctrl.toBytes 1

/-- Read of the control/status register, `ds3231_get_cs`. -/
def ds3231_get_cs (bus : Bus) (ctrl_status : Internal_DS3231_CtrlStat_t) :
    Int × Internal_DS3231_CtrlStat_t × Bus :=
  let (res, data, bus) := ds3231_i2c_read bus DS3231_CS_REG ctrl_status.toBytes 1
  (res, Internal_DS3231_CtrlStat_t.ofBytes data, bus)

/-- Write of the control/status register, `ds3231_set_cs`. -/
def ds3231_set_cs (bus : Bus) (ctrl_status : Internal_DS3231_CtrlStat_t) : Int × Bus :=
  ds3231_i2c_write bus DS3231_CS_REG ctrl_status.toBytes 1

/-! ## Calendar and temperature -/

/-- Read the calendar, `ds3231_get_calendar`.  `calendar` is the value behind the output
pointer before the call, `stack` the bytes of the uninitialised local image. -/
def ds3231_get_calendar (bus : Bus) (calendar : DS3231_Calendar_t) (stack : List Nat) :
    Int × DS3231_Calendar_t × Bus :=
  let (res, data, bus) := ds3231_i2c_read bus DS3231_CAL_REG stack 7
  let int_calendar := Internal_DS3231_Calendar_t.ofBytes data
  if res = ESP_OK then
    (res, ds3231_convert_int_calendar calendar int_calendar, bus)
  else
    (res, calendar, bus)

/-- Write the calendar, `ds3231_set_calendar`. -/
def ds3231_set_calendar (bus : Bus) (calendar : DS3231_Calendar_t) (stack : List Nat) :
    Int × Bus :=
  let int_calendar := Internal_DS3231_Calendar_t.ofBytes stack
  let int_calendar := ds3231_convert_ext_calendar calendar int_calendar
  ds3231_i2c_write bus DS3231_CAL_REG int_calendar.toBytes 7

/-- The value `(int16_t)temp` of a `uint16_t`. -/
def int16_of_uint16 (temp : Nat) : Int :=
  if temp % 65536 < 32768 then (temp % 65536 : Nat) else ((temp % 65536 : Nat) : Int) - 65536

/-- The arithmetic of `ds3231_get_temperature` (lines 172-180) on the two register bytes;
the `float` product with `0.25f` is exact and is taken over the rationals. -/
def ds3231_temperature_of_bytes (temp_data : List Nat) : ℚ :=
  let temp := ((byteAt temp_data 0 <<< 2) ||| (byteAt temp_data 1 >>> 6)) % 65536
  let temp := if temp &&& 0x200 ≠ 0 then (temp ||| 0xFC00) % 65536 else temp
  (int16_of_uint16 temp : ℚ) * (1 / 4)

/-- Read the temperature, `ds3231_get_temperature`.  `temperature` is `none` for a null
output pointer, otherwise the value behind it before the call. -/
def ds3231_get_temperature (bus : Bus) (temperature : Option ℚ) (stack : List Nat) :
    Int × Option ℚ × Bus :=
  let (res, temp_data, bus) := ds3231_i2c_read bus DS3231_TEMP_REG stack 2
  if res = ESP_OK ∧ temperature.isSome then
    (res, some (ds3231_temperature_of_bytes temp_data), bus)
  else
    (res, temperature, bus)

/-! ## Alarms -/

/-- The decoding part of `ds3231_get_alarm1` (lines 509-527). -/
def ds3231_get_alarm1_decode (alarm : DS3231_AlarmSetting_t)
    (alarm1 : Internal_DS3231_Alarm1_t) : DS3231_AlarmSetting_t :=
  let alarm := { alarm with seconds := (alarm1.seconds_10s * 10 + alarm1.seconds_1s) % 256 }
  let alarm := { alarm with minutes := (alarm1.minutes_10s * 10 + alarm1.minutes_1s) % 256 }
  let alarm :=
    if alarm1.mode_12_24h ≠ 0 then
      let alarm := { alarm with clock_type := DS3231_ClockType_12_Hour }
      let alarm := { alarm with
        am_pm := if alarm1.am_pm_hour_20 ≠ 0 then DS3231_PM else DS3231_AM }
      { alarm with hour := (alarm1.hour_10s * 10 + alarm1.hour_1s) % 256 }
    else
      let alarm := { alarm with clock_type := DS3231_ClockType_24_Hour }
      { alarm with
        hour := (alarm1.am_pm_hour_20 * 20 + alarm1.hour_10s * 10 + alarm1.hour_1s) % 256 }
  let alarm := { alarm with day := (alarm1.day_10s * 10 + alarm1.day_1s) % 256 }
  let alarm := { alarm with
    day_type := if alarm1.day_of_week_or_month ≠ 0 then DS3231_AlarmDayType_DayOfWeek
                else DS3231_AlarmDayType_DayOfMonth }
  { alarm with
    alarm_rate :=
      (alarm1.a1m4 <<< 3 ||| alarm1.a1m3 <<< 2 ||| alarm1.a1m2 <<< 1 ||| alarm1.a1m1) % 256 }

/-- Read alarm 1, `ds3231_get_alarm1`. -/
def ds3231_get_alarm1 (bus : Bus) (alarm : DS3231_AlarmSetting_t) (stack : List Nat) :
    Int × DS3231_AlarmSetting_t × Bus :=
  let (res, data, bus) := ds3231_i2c_read bus DS3231_ALM1_REG stack 4
  let alarm1 := Internal_DS3231_Alarm1_t.ofBytes data
  if res = ESP_OK then
    (res, ds3231_get_alarm1_decode alarm alarm1, bus)
  else
    (res, alarm, bus)

/-- The decoding part of `ds3231_get_alarm2` (lines 539-557). -/
def ds3231_get_alarm2_decode (alarm : DS3231_AlarmSetting_t)
    (alarm2 : Internal_DS3231_Alarm2_t) : DS3231_AlarmSetting_t :=
  let alarm := { alarm with seconds := 0 }
  let alarm := { alarm with minutes := (alarm2.minutes_10s * 10 + alarm2.minutes_1s) % 256 }
  let alarm :=
    if alarm2.mode_12_24h ≠ 0 then
      let alarm := { alarm with clock_type := DS3231_ClockType_12_Hour }
      let alarm := { alarm with
        am_pm := if alarm2.am_pm_hour_20 ≠ 0 then DS3231_PM else DS3231_AM }
      { alarm with hour := (alarm2.hour_10s * 10 + alarm2.hour_1s) % 256 }
    else
      let alarm := { alarm with clock_type := DS3231_ClockType_24_Hour }
      { alarm with
        hour := (alarm2.am_pm_hour_20 * 20 + alarm2.hour_10s * 10 + alarm2.hour_1s) % 256 }
  let alarm := { alarm with day := (alarm2.day_10s * 10 + alarm2.day_1s) % 256 }
  let alarm := { alarm with
    day_type := if alarm2.day_of_week_or_month ≠ 0 then DS3231_AlarmDayType_DayOfWeek
                else DS3231_AlarmDayType_DayOfMonth }
  { alarm with
    alarm_rate := (alarm2.a2m4 <<< 2 ||| alarm2.a2m3 <<< 1 ||| alarm2.a2m2) % 256 }

/-- Read alarm 2, `ds3231_get_alarm2`; the read is issued at `DS3231_ALM1_REG` (line 536). -/
def ds3231_get_alarm2 (bus : Bus) (alarm : DS3231_AlarmSetting_t) (stack : List Nat) :
    Int × DS3231_AlarmSetting_t × Bus :=
  let (res, data, bus) := ds3231_i2c_read bus DS3231_ALM1_REG stack 3
  let alarm2 := Internal_DS3231_Alarm2_t.ofBytes data
  if res = ESP_OK then
    (res, ds3231_get_alarm2_decode alarm alarm2, bus)
  else
    (res, alarm, bus)

/-- The image built by `ds3231_set_alarm1` (lines 564-603) in its uninitialised local,
whose prior bits are `alarm1`.  In 12-hour mode neither `mode_12_24h` nor `a1m3` is
assigned; `day_1s` is assigned twice and `day_10s` never. -/
def ds3231_set_alarm1_image (alarm : DS3231_AlarmSetting_t)
    (alarm1 : Internal_DS3231_Alarm1_t) : Internal_DS3231_Alarm1_t :=
  let alarm1 := { alarm1 with seconds_1s := (alarm.seconds % 10) % 16 }
  let alarm1 := { alarm1 with seconds_10s := (alarm.seconds / 10) % 8 }
  let alarm1 := { alarm1 with a1m1 := if alarm.alarm_rate &&& 0b0001 = 0b0001 then 1 else 0 }
  let alarm1 := { alarm1 with minutes_1s := (alarm.minutes % 10) % 16 }
  let alarm1 := { alarm1 with minutes_10s := (alarm.minutes / 10) % 8 }
  let alarm1 := { alarm1 with a1m2 := if alarm.alarm_rate &&& 0b0010 = 0b0010 then 1 else 0 }
  let alarm1 := { alarm1 with hour_1s := (alarm.hour % 10) % 16 }
  let alarm1 :=
    if alarm.clock_type = DS3231_ClockType_12_Hour then
      let alarm1 := { alarm1 with hour_10s := (alarm.hour / 10) % 2 }
      { alarm1 with am_pm_hour_20 := if alarm.am_pm = DS3231_PM then 1 else 0 }
    else
      let alarm1 := { alarm1 with mode_12_24h := 0 }
      let alarm1 := { alarm1 with
        a1m3 := if alarm.alarm_rate &&& 0b0100 = 0b0100 then 1 else 0 }
      if alarm.hour > 19 then
        let alarm1 := { alarm1 with am_pm_hour_20 := 1 }
        { alarm1 with hour_10s := 0 }
      else if alarm.hour > 9 then
        let alarm1 := { alarm1 with am_pm_hour_20 := 0 }
        { alarm1 with hour_10s := (alarm.hour / 10) % 2 }
      else
        { alarm1 with hour_10s := 0 }
  let alarm1 := { alarm1 with
    day_of_week_or_month :=
      if alarm.day_type = DS3231_AlarmDayType_DayOfMonth then 1 else 0 }
  let alarm1 := { alarm1 with day_1s := (alarm.day % 10) % 16 }
  let alarm1 := { alarm1 with day_1s := (alarm.day / 10) % 16 }
  { alarm1 with a1m4 := if alarm.alarm_rate &&& 0b1000 = 0b1000 then 1 else 0 }

/-- Write alarm 1, `ds3231_set_alarm1`. -/
def ds3231_set_alarm1 (bus : Bus) (alarm : DS3231_AlarmSetting_t) (stack : List Nat) :
    Int × Bus :=
  let alarm1 := ds3231_set_alarm1_image alarm (Internal_DS3231_Alarm1_t.ofBytes stack)
  ds3231_i2c_write bus DS3231_ALM1_REG alarm1.toBytes 4

/-- The image built by `ds3231_set_alarm2` (lines 610-645) in its uninitialised local,
whose prior bits are `alarm2`.  In 12-hour mode neither `mode_12_24h` nor `a2m3` is
assigned. -/
def ds3231_set_alarm2_image (alarm : DS3231_AlarmSetting_t)
    (alarm2 : Internal_DS3231_Alarm2_t) : Internal_DS3231_Alarm2_t :=
  let alarm2 := { alarm2 with minutes_1s := (alarm.minutes % 10) % 16 }
  let alarm2 := { alarm2 with minutes_10s := (alarm.minutes / 10) % 8 }
  let alarm2 := { alarm2 with a2m2 := if alarm.alarm_rate &&& 0b001 = 0b001 then 1 else 0 }
  let alarm2 := { alarm2 with hour_1s := (alarm.hour % 10) % 16 }
  let alarm2 :=
    if alarm.clock_type = DS3231_ClockType_12_Hour then
      let alarm2 := { alarm2 with hour_10s := (alarm.hour / 10) % 2 }
      { alarm2 with am_pm_hour_20 := if alarm.am_pm = DS3231_PM then 1 else 0 }
    else
      let alarm2 := { alarm2 with mode_12_24h := 0 }
      let alarm2 := { alarm2 with
        a2m3 := if alarm.alarm_rate &&& 0b010 = 0b010 then 1 else 0 }
      if alarm.hour > 19 then
        let alarm2 := { alarm2 with am_pm_hour_20 := 1 }
        { alarm2 with hour_10s := 0 }
      else if alarm.hour > 9 then
        let alarm2 := { alarm2 with am_pm_hour_20 := 0 }
        { alarm2 with hour_10s := (alarm.hour / 10) % 2 }
      else
        { alarm2 with hour_10s := 0 }
  let alarm2 := { alarm2 with
    day_of_week_or_month :=
      if alarm.day_type = DS3231_AlarmDayType_DayOfWeek then 1 else 0 }
  let alarm2 := { alarm2 with day_1s := (alarm.day % 10) % 16 }
  let alarm2 := { alarm2 with day_10s := (alarm.day / 10) % 4 }
  { alarm2 with a2m4 := if alarm.alarm_rate &&& 0b100 = 0b100 then 1 else 0 }

/-- Write alarm 2, `ds3231_set_alarm2`. -/
def ds3231_set_alarm2 (bus : Bus) (alarm : DS3231_AlarmSetting_t) (stack : List Nat) :
    Int × Bus :=
  let alarm2 := ds3231_set_alarm2_image alarm (Internal_DS3231_Alarm2_t.ofBytes stack)
  ds3231_i2c_write bus DS3231_ALM2_REG alarm2.toBytes 3

/-- Read the alarm selected by `alarm.alarm_type`, `ds3231_get_alarm`. -/
def ds3231_get_alarm (bus : Bus) (alarm : DS3231_AlarmSetting_t) (stack : List Nat) :
    Int × DS3231_AlarmSetting_t × Bus :=
  if alarm.alarm_type = DS3231_AlarmType_Alarm1 then
    ds3231_get_alarm1 bus alarm stack
  else if alarm.alarm_type = DS3231_AlarmType_Alarm2 then
    ds3231_get_alarm2 bus alarm stack
  else
    (ESP_ERR_INVALID_ARG, alarm, bus)

/-- Write the alarm selected by `alarm.alarm_type`, `ds3231_set_alarm`. -/
def ds3231_set_alarm (bus : Bus) (alarm : DS3231_AlarmSetting_t) (stack : List Nat) :
    Int × Bus :=
  if alarm.alarm_type = DS3231_AlarmType_Alarm1 then
    ds3231_set_alarm1 bus alarm stack
  else if alarm.alarm_type = DS3231_AlarmType_Alarm2 then
    ds3231_set_alarm2 bus alarm stack
  else
    (ESP_ERR_INVALID_ARG, bus)

/-! ## Control register operations

In each operation `stack` is the byte of the uninitialised local register image. -/

/-- Read the alarm interrupt enables, `ds3231_get_intr_en`. -/
def ds3231_get_intr_en (bus : Bus) (intr_flag : Nat) (stack : List Nat) : Int × Nat × Bus :=
  let ctrl := Internal_DS3231_Control_t.ofBytes stack
  let (res, ctrl, bus) := ds3231_get_ctrl bus ctrl
  if res = ESP_OK then
    let intr_flag := DS3231_Interrupt_None
    let intr_flag :=
      (intr_flag ||| (if ctrl.alarm1_intr_en ≠ 0 then DS3231_Interrupt_Alarm_1 else 0)) % 256
    let intr_flag :=
      (intr_flag ||| (if ctrl.alarm2_intr_en ≠ 0 then DS3231_Interrupt_Alarm_2 else 0)) % 256
    (res, intr_flag, bus)
  else
    (res, intr_flag, bus)

/-- Set the alarm interrupt enables, `ds3231_set_intr_en`: the write of line 231 is issued
whatever the result of the read. -/
def ds3231_set_intr_en (bus : Bus) (intr_flags : Nat) (stack : List Nat) : Int × Bus :=
  let ctrl := Internal_DS3231_Control_t.ofBytes stack
  let (res, ctrl, bus) := ds3231_get_ctrl bus ctrl
  let ctrl :=
    if res = ESP_OK then
      let ctrl := { ctrl with intr_control := if intr_flags ≠ 0 then 1 else 0 }
      let ctrl := { ctrl with
        alarm1_intr_en :=
          if intr_flags &&& DS3231_Interrupt_Alarm_1 = DS3231_Interrupt_Alarm_1 then 1 else 0 }
      { ctrl with
        alarm2_intr_en :=
          if intr_flags &&& DS3231_Interrupt_Alarm_2 = DS3231_Interrupt_Alarm_2 then 1 else 0 }
    else
      ctrl
  ds3231_set_ctrl bus ctrl

/-- Set the square wave output, `ds3231_set_square_wave`. -/
def ds3231_set_square_wave (bus : Bus) (sqw : Nat) (stack : List Nat) : Int × Bus :=
  let ctrl := Internal_DS3231_Control_t.ofBytes stack
  let (res, ctrl, bus) := ds3231_get_ctrl bus ctrl
  if res ≠ ESP_OK then
    (res, bus)
  else
    let ctrl :=
      if sqw = DS3231_SquareWave_Off then
        { ctrl with bbsqw := 0 }
      else
        let ctrl := { ctrl with rs := sqw % 4 }
        { ctrl with bbsqw := 1 }
    ds3231_set_ctrl bus ctrl

/-- Read the square wave output setting, `ds3231_get_square_wave`: line 261 returns
`ESP_OK`, not `res`. -/
def ds3231_get_square_wave (bus : Bus) (square_wave_setting : Nat) (stack : List Nat) :
    Int × Nat × Bus :=
  let ctrl := Internal_DS3231_Control_t.ofBytes stack
  let (res, ctrl, bus) := ds3231_get_ctrl bus ctrl
  let square_wave_setting :=
    if res = ESP_OK then
      (if ctrl.bbsqw ≠ 0 then ctrl.rs else DS3231_SquareWave_Off) % 256
    else
      square_wave_setting
  (ESP_OK, square_wave_setting, bus)

/-- Trigger a temperature conversion, `ds3231_set_convert_temperature`. -/
def ds3231_set_convert_temperature (bus : Bus) (stack : List Nat) : Int × Bus :=
  let ctrl := Internal_DS3231_Control_t.ofBytes stack
  let (res, ctrl, bus) := ds3231_get_ctrl bus ctrl
  if res ≠ ESP_OK then
    (res, bus)
  else
    let ctrl := { ctrl with conv := 1 }
    ds3231_set_ctrl bus ctrl

/-- Read the convert bit, `ds3231_get_convert_temperature`. -/
def ds3231_get_convert_temperature (bus : Bus) (conv : Nat) (stack : List Nat) :
    Int × Nat × Bus :=
  let ctrl := Internal_DS3231_Control_t.ofBytes stack
  let (res, ctrl, bus) := ds3231_get_ctrl bus ctrl
  if res = ESP_OK then
    (res, ctrl.conv % 256, bus)
  else
    (res, conv, bus)

/-- Read the oscillator setting, `ds3231_get_osc`. -/
def ds3231_get_osc (bus : Bus) (eosc : Nat) (stack : List Nat) : Int × Nat × Bus :=
  let ctrl := Internal_DS3231_Control_t.ofBytes stack
  let (res, ctrl, bus) := ds3231_get_ctrl bus ctrl
  if res ≠ ESP_OK then
    (res, eosc, bus)
  else
    (ESP_OK, ctrl.osc_en_n % 256, bus)

/-- Enable or disable the oscillator, `ds3231_set_osc`. -/
def ds3231_set_osc (bus : Bus) (eosc : Nat) (stack : List Nat) : Int × Bus :=
  let ctrl := Internal_DS3231_Control_t.ofBytes stack
  let (res, ctrl, bus) := ds3231_get_ctrl bus ctrl
  if res ≠ ESP_OK then
    (res, bus)
  else
    let ctrl := { ctrl with osc_en_n := eosc % 2 }
    ds3231_set_ctrl bus ctrl

/-! ## Control/status register operations -/

/-- Read the 32kHz output enable, `ds3231_get_32kHz`. -/
def ds3231_get_32kHz (bus : Bus) (en32kHz : Nat) (stack : List Nat) : Int × Nat × Bus :=
  let cs := Internal_DS3231_CtrlStat_t.ofBytes stack
  let (res, cs, bus) := ds3231_get_cs bus cs
  if res = ESP_OK then
    (res, cs.en32kHz % 256, bus)
  else
    (res, en32kHz, bus)

/-- Enable or disable the 32kHz output, `ds3231_set_32kHz`. -/
def ds3231_set_32kHz (bus : Bus) (en32kHz : Nat) (stack : List Nat) : Int × Bus :=
  let cs := Internal_DS3231_CtrlStat_t.ofBytes stack
  let (res, cs, bus) := ds3231_get_cs bus cs
  if res ≠ ESP_OK then
    (res, bus)
  else
    let cs := { cs with en32kHz := en32kHz % 2 }
    ds3231_set_cs bus cs

/-- Read the busy bit, `ds3231_is_busy`. -/
def ds3231_is_busy (bus : Bus) (busy : Nat) (stack : List Nat) : Int × Nat × Bus :=
  let cs := Internal_DS3231_CtrlStat_t.ofBytes stack
  let (res, cs, bus) := ds3231_get_cs bus cs
  if res = ESP_OK then
    (res, cs.bsy % 256, bus)
  else
    (res, busy, bus)

/-- Read the oscillator-stopped flag, `ds3231_get_osc_stop_flag`. -/
def ds3231_get_osc_stop_flag (bus : Bus) (osc_stop_flag : Nat) (stack : List Nat) :
    Int × Nat × Bus :=
  let cs := Internal_DS3231_CtrlStat_t.ofBytes stack
  let (res, cs, bus) := ds3231_get_cs bus cs
  if res ≠ ESP_OK then
    (res, osc_stop_flag, bus)
  else
    (ESP_OK, cs.osf % 256, bus)

/-- Clear the oscillator-stopped flag, `ds3231_clear_osc_stop_flag`. -/
def ds3231_clear_osc_stop_flag (bus : Bus) (stack : List Nat) : Int × Bus :=
  let cs := Internal_DS3231_CtrlStat_t.ofBytes stack
  let (res, cs, bus) := ds3231_get_cs bus cs
  if res ≠ ESP_OK then
    (res, bus)
  else
    let cs := { cs with osf := 0 }
    ds3231_set_cs bus cs

/-- Read the alarm fired flags, `ds3231_get_intr_flag`. -/
def ds3231_get_intr_flag (bus : Bus) (intr_flag : Nat) (stack : List Nat) : Int × Nat × Bus :=
  let ctrl_status := Internal_DS3231_CtrlStat_t.ofBytes stack
  let (res, ctrl_status, bus) := ds3231_get_cs bus ctrl_status
  if res = ESP_OK then
    let intr_flag := DS3231_Interrupt_None
    let intr_flag :=
      (intr_flag ||| (if ctrl_status.a1f ≠ 0 then DS3231_Interrupt_Alarm_1 else 0)) % 256
    let intr_flag :=
      (intr_flag ||| (if ctrl_status.a2f ≠ 0 then DS3231_Interrupt_Alarm_2 else 0)) % 256
    (res, intr_flag, bus)
  else
    (res, intr_flag, bus)

/-- Clear the requested alarm fired flags, `ds3231_clear_intr_flag`. -/
def ds3231_clear_intr_flag (bus : Bus) (intr_flags : Nat) (stack : List Nat) : Int × Bus :=
  let ctrl_status := Internal_DS3231_CtrlStat_t.ofBytes stack
  let (res, ctrl_status, bus) := ds3231_get_cs bus ctrl_status
  if res ≠ ESP_OK then
    (res, bus)
  else
    let ctrl_status := { ctrl_status with
      a1f := if intr_flags &&& DS3231_Interrupt_Alarm_1 = DS3231_Interrupt_Alarm_1 then 0
             else ctrl_status.a1f }
    let ctrl_status := { ctrl_status with
      a2f := if intr_flags &&& DS3231_Interrupt_Alarm_2 = DS3231_Interrupt_Alarm_2 then 0
             else ctrl_status.a2f }
    ds3231_set_cs bus ctrl_status

/-! ## Sample values -/

/-- A device whose registers all hold zero and whose transport succeeds. -/
def zeroBus : Bus := { regs := fun _ => 0, results := [], log := [] }

/-- A device whose control register holds `0x1C` and whose next transaction times out. -/
def timeoutBus : Bus :=
  { regs := fun a => if a = DS3231_CTRL_REG then 0x1C else 0
    results := [ESP_ERR_TIMEOUT]
    log := [] }

/-- A caller's calendar value before a read. -/
def blankCalendar : DS3231_Calendar_t :=
  { seconds := 0, minutes := 0, hour := 0, day_of_week := 0, day_of_month := 0, month := 0,
    year := 0, clock_type := DS3231_ClockType_12_Hour, am_pm := DS3231_AM }

/-- The calendar value 05:15:30 (24-hour clock), weekday 3, 14 June 2024. -/
def morningCalendar : DS3231_Calendar_t :=
  { seconds := 30, minutes := 15, hour := 5, day_of_week := 3, day_of_month := 14, month := 6,
    year := 2024, clock_type := DS3231_ClockType_24_Hour, am_pm := DS3231_AM }

/-- A 24-hour calendar value at hour `h` on 31 December of year `y`. -/
def calendarAt (h y : Nat) : DS3231_Calendar_t :=
  { seconds := 59, minutes := 59, hour := h, day_of_week := 7, day_of_month := 31, month := 12,
    year := y, clock_type := DS3231_ClockType_24_Hour, am_pm := DS3231_AM }

/-- Alarm 10:15:30 (24-hour clock) on day 23 of the month, all fields matching, for the
alarm selected by `t`. -/
def sampleAlarm (t : Nat) : DS3231_AlarmSetting_t :=
  { seconds := if t = DS3231_AlarmType_Alarm2 then 0 else 30, minutes := 15, hour := 10,
    day := 23, alarm_type := t, clock_type := DS3231_ClockType_24_Hour, am_pm := DS3231_AM,
    day_type := DS3231_AlarmDayType_DayOfMonth, alarm_rate := 0 }

/-- The ranges of a calendar value documented in `ds3231.h`. -/
def calendarInRange (v : DS3231_Calendar_t) : Prop :=
  v.seconds ≤ 59 ∧ v.minutes ≤ 59 ∧
  (if v.clock_type = DS3231_ClockType_24_Hour then v.hour ≤ 23 else 1 ≤ v.hour ∧ v.hour ≤ 12) ∧
  1 ≤ v.day_of_week ∧ v.day_of_week ≤ 7 ∧ 1 ≤ v.day_of_month ∧ v.day_of_month ≤ 31 ∧
  1 ≤ v.month ∧ v.month ≤ 12 ∧ 2000 ≤ v.year ∧ v.year ≤ 2199

instance (v : DS3231_Calendar_t) : Decidable (calendarInRange v) := by
  unfold calendarInRange; infer_instance

/-- A device whose control register holds `c`, whose control/status register holds `s`, and
whose transport succeeds. -/
def ctrlBus (c s : Nat) : Bus :=
  { regs := fun a => if a = DS3231_CTRL_REG then c else if a = DS3231_CS_REG then s else 0
    results := []
    log := [] }

/-- A device whose temperature registers hold `b0` and `b1` and whose transport succeeds. -/
def tempBus (b0 b1 : Nat) : Bus :=
  { regs := fun a => if a = DS3231_TEMP_REG then b0 else if a = DS3231_TEMP_REG + 1 then b1 else 0
    results := []
    log := [] }

/-- Alarm 07:15:30 PM (12-hour clock) on weekday 3, firing at the highest rate of the alarm
selected by `t` (every second for alarm 1, every minute for alarm 2). -/
def eveningAlarm (t : Nat) : DS3231_AlarmSetting_t :=
  { seconds := if t = DS3231_AlarmType_Alarm2 then 0 else 30, minutes := 15, hour := 7,
    day := 3, alarm_type := t, clock_type := DS3231_ClockType_12_Hour, am_pm := DS3231_PM,
    day_type := DS3231_AlarmDayType_DayOfWeek,
    alarm_rate := if t = DS3231_AlarmType_Alarm2 then 0x07 else 0x0F }

/-! ## Supporting lemmas -/

/-- A read whose transaction fails returns the transport's error, leaves the buffer and the
registers as they were, and logs the one transaction. -/
theorem i2c_read_failure (bus : Bus) (reg : Nat) (data : List Nat) (n : Nat) (e : Int)
    (rest : List Int) (hr : bus.results = e :: rest) (he : e ≠ ESP_OK) :
    ds3231_i2c_read bus reg data n
      = (e, data, { bus with results := rest, log := bus.log ++ [BusOp.read reg n] }) := by
  simp [ds3231_i2c_read, Bus.next, hr, he]

/-- Every getter other than `ds3231_get_square_wave` returns the error of its failed
read. -/
theorem other_getters_return_read_error (bus : Bus) (e : Int) (rest : List Int)
    (stack : List Nat) (hr : bus.results = e :: rest) (he : e ≠ ESP_OK) :
    (∀ calendar, (ds3231_get_calendar bus calendar stack).1 = e) ∧
    (∀ alarm, alarm.alarm_type = DS3231_AlarmType_Alarm1 ∨
        alarm.alarm_type = DS3231_AlarmType_Alarm2 → (ds3231_get_alarm bus alarm stack).1 = e) ∧
    (∀ temperature, (ds3231_get_temperature bus temperature stack).1 = e) ∧
    (∀ intr_flag, (ds3231_get_intr_en bus intr_flag stack).1 = e) ∧
    (∀ conv, (ds3231_get_convert_temperature bus conv stack).1 = e) ∧
    (∀ eosc, (ds3231_get_osc bus eosc stack).1 = e) ∧
    (∀ en32kHz, (ds3231_get_32kHz bus en32kHz stack).1 = e) ∧
    (∀ busy, (ds3231_is_busy bus busy stack).1 = e) ∧
    (∀ osc_stop_flag, (ds3231_get_osc_stop_flag bus osc_stop_flag stack).1 = e) ∧
    (∀ intr_flag, (ds3231_get_intr_flag bus intr_flag stack).1 = e) := by
  refine ⟨?_, ?_, ?_, ?_, ?_, ?_, ?_, ?_, ?_, ?_⟩
  · intro c; simp [ds3231_get_calendar, i2c_read_failure bus _ _ _ e rest hr he, he]
  · intro a ha
    unfold ds3231_get_alarm
    split
    · simp [ds3231_get_alarm1, i2c_read_failure bus _ _ _ e rest hr he, he]
    · split
      · simp [ds3231_get_alarm2, i2c_read_failure bus _ _ _ e rest hr he, he]
      · rcases ha with ha | ha <;> contradiction
  · intro t; simp [ds3231_get_temperature, i2c_read_failure bus _ _ _ e rest hr he, he]
  · intro t
    simp [ds3231_get_intr_en, ds3231_get_ctrl, i2c_read_failure bus _ _ _ e rest hr he, he]
  · intro t
    simp [ds3231_get_convert_temperature, ds3231_get_ctrl,
      i2c_read_failure bus _ _ _ e rest hr he, he]
  · intro t
    simp [ds3231_get_osc, ds3231_get_ctrl, i2c_read_failure bus _ _ _ e rest hr he, he]
  · intro t
    simp [ds3231_get_32kHz, ds3231_get_cs, i2c_read_failure bus _ _ _ e rest hr he, he]
  · intro t
    simp [ds3231_is_busy, ds3231_get_cs, i2c_read_failure bus _ _ _ e rest hr he, he]
  · intro t
    simp [ds3231_get_osc_stop_flag, ds3231_get_cs, i2c_read_failure bus _ _ _ e rest hr he, he]
  · intro t
    simp [ds3231_get_intr_flag, ds3231_get_cs, i2c_read_failure bus _ _ _ e rest hr he, he]

/-- Every read-modify-write setter other than `ds3231_set_intr_en` stops after its failed
read: it returns the error, and the only transaction issued is the read. -/
theorem other_setters_stop_after_failed_read (bus : Bus) (e : Int) (rest : List Int)
    (stack : List Nat) (hr : bus.results = e :: rest) (he : e ≠ ESP_OK) :
    (∀ sqw, ds3231_set_square_wave bus sqw stack
        = (e, { bus with results := rest, log := bus.log ++ [BusOp.read DS3231_CTRL_REG 1] })) ∧
    ds3231_set_convert_temperature bus stack
        = (e, { bus with results := rest, log := bus.log ++ [BusOp.read DS3231_CTRL_REG 1] }) ∧
    (∀ eosc, ds3231_set_osc bus eosc stack
        = (e, { bus with results := rest, log := bus.log ++ [BusOp.read DS3231_CTRL_REG 1] })) ∧
    (∀ en32kHz, ds3231_set_32kHz bus en32kHz stack
        = (e, { bus with results := rest, log := bus.log ++ [BusOp.read DS3231_CS_REG 1] })) ∧
    ds3231_clear_osc_stop_flag bus stack
        = (e, { bus with results := rest, log := bus.log ++ [BusOp.read DS3231_CS_REG 1] }) ∧
    (∀ intr_flags, ds3231_clear_intr_flag bus intr_flags stack
        = (e, { bus with results := rest, log := bus.log ++ [BusOp.read DS3231_CS_REG 1] })) := by
  refine ⟨?_, ?_, ?_, ?_, ?_, ?_⟩
  · intro t
    simp [ds3231_set_square_wave, ds3231_get_ctrl, i2c_read_failure bus _ _ _ e rest hr he, he]
  · simp [ds3231_set_convert_temperature, ds3231_get_ctrl,
      i2c_read_failure bus _ _ _ e rest hr he, he]
  · intro t
    simp [ds3231_set_osc, ds3231_get_ctrl, i2c_read_failure bus _ _ _ e rest hr he, he]
  · intro t
    simp [ds3231_set_32kHz, ds3231_get_cs, i2c_read_failure bus _ _ _ e rest hr he, he]
  · simp [ds3231_clear_osc_stop_flag, ds3231_get_cs,
      i2c_read_failure bus _ _ _ e rest hr he, he]
  · intro t
    simp [ds3231_clear_intr_flag, ds3231_get_cs, i2c_read_failure bus _ _ _ e rest hr he, he]

/-! ## Calendar codec: round trip, hour and year boundaries -/

/-- C1: the calendar round trip does not hold for every valid value and every prior
content of the image buffer.  The valid 24-hour value 05:15:30, weekday 3, 14 June 2024,
encoded into a buffer whose hour byte held `0x20`, keeps the stale 20-hour bit and decodes
to hour 25; all other fields come back.  The same happens through `ds3231_set_calendar`
and `ds3231_get_calendar` on a device that stores the bytes. -/
theorem calendar_roundtrip_breaks_on_stale_hour_bits :
    calendarInRange morningCalendar ∧
    (ds3231_convert_ext_calendar morningCalendar
        (Internal_DS3231_Calendar_t.ofBytes [0, 0, 0x20, 0, 0, 0, 0])).toBytes
      = [0x30, 0x15, 0x25, 0x03, 0x14, 0x06, 0x24] ∧
    ds3231_convert_int_calendar blankCalendar
        (ds3231_convert_ext_calendar morningCalendar
          (Internal_DS3231_Calendar_t.ofBytes [0, 0, 0x20, 0, 0, 0, 0]))
      = { morningCalendar with hour := 25 } ∧
    (ds3231_get_calendar
        (ds3231_set_calendar zeroBus morningCalendar [0, 0, 0x20, 0, 0, 0, 0]).2
        blankCalendar [0, 0, 0, 0, 0, 0, 0]).2.1
      = { morningCalendar with hour := 25 } := by
  decide

/-- C5: in 24-hour mode the hours 0 and 9 do not decode back when the image buffer held
set bits in its hour byte: over a buffer of `0xFF` bytes hour 0 decodes to 30 and hour 9 to
39 (clock type 24-hour in both), while hours 10, 19, 20 and 23 decode to themselves. -/
theorem hour_24h_below_ten_decodes_with_stale_bits :
    (List.map
      (fun h =>
        (ds3231_convert_int_calendar blankCalendar
          (ds3231_convert_ext_calendar (calendarAt h 2024)
            (Internal_DS3231_Calendar_t.ofBytes
              [0xFF, 0xFF, 0xFF, 0xFF, 0xFF, 0xFF, 0xFF]))).hour)
      [0, 9, 10, 19, 20, 23]) = [30, 39, 10, 19, 20, 23] ∧
    (ds3231_convert_int_calendar blankCalendar
      (ds3231_convert_ext_calendar (calendarAt 0 2024)
        (Internal_DS3231_Calendar_t.ofBytes
          [0xFF, 0xFF, 0xFF, 0xFF, 0xFF, 0xFF, 0xFF]))).clock_type
      = DS3231_ClockType_24_Hour := by
  decide

/-- C6: for every year 2000..2199, whatever the other fields and the prior image,
`ds3231_convert_ext_calendar` sets century to 1 exactly when the year exceeds 2099, year
tens to `(year mod 100) / 10` and year units to `year mod 10`, and
`ds3231_convert_int_calendar` of that image returns the year. -/
theorem year_encoding_and_roundtrip (v c : DS3231_Calendar_t)
    (out : Internal_DS3231_Calendar_t) (hlo : 2000 ≤ v.year) (hhi : v.year ≤ 2199) :
    (ds3231_convert_ext_calendar v out).century = (if v.year > 2099 then 1 else 0) ∧
    (ds3231_convert_ext_calendar v out).year_10s = (v.year % 100) / 10 ∧
    (ds3231_convert_ext_calendar v out).year_1s = v.year % 10 ∧
    (ds3231_convert_int_calendar c (ds3231_convert_ext_calendar v out)).year = v.year := by
  unfold ds3231_convert_int_calendar ds3231_convert_ext_calendar ds3231_convert_ext_calendar_year
  have h1 : v.year % 65536 = v.year := by omega
  simp only [h1]
  by_cases h : v.year > 2099
  · have h2 : (v.year + 65536 - 2100) % 65536 = v.year - 2100 := by omega
    have h3 : (v.year - 2100) / 10 % 16 = (v.year - 2100) / 10 := by omega
    have h4 : (v.year - 2100) % 10 % 16 = (v.year - 2100) % 10 := by omega
    simp only [h, if_true, h2, h3, h4]
    refine ⟨trivial, ?_, ?_, ?_⟩ <;> omega
  · have h2 : (v.year + 65536 - 2000) % 65536 = v.year - 2000 := by omega
    have h3 : (v.year - 2000) / 10 % 16 = (v.year - 2000) / 10 := by omega
    have h4 : (v.year - 2000) % 10 % 16 = (v.year - 2000) % 10 := by omega
    simp only [h, if_false, h2, h3, h4]
    refine ⟨trivial, ?_, ?_, ?_⟩ <;> omega

/-- C6 at the century boundary, over a buffer of `0xFF` bytes: 2099 encodes as century 0,
tens 9, units 9 and 2100 as century 1, tens 0, units 0; both decode back. -/
theorem year_encoding_and_roundtrip_witness :
    ((2000 ≤ (calendarAt 23 2099).year ∧ (calendarAt 23 2099).year ≤ 2199) ∧
      (ds3231_convert_ext_calendar (calendarAt 23 2099)
        (Internal_DS3231_Calendar_t.ofBytes [0xFF, 0xFF, 0xFF, 0xFF, 0xFF, 0xFF, 0xFF])).century
        = 0 ∧
      (ds3231_convert_ext_calendar (calendarAt 23 2099)
        (Internal_DS3231_Calendar_t.ofBytes [0xFF, 0xFF, 0xFF, 0xFF, 0xFF, 0xFF, 0xFF])).year_10s
        = 9 ∧
      (ds3231_convert_ext_calendar (calendarAt 23 2099)
        (Internal_DS3231_Calendar_t.ofBytes [0xFF, 0xFF, 0xFF, 0xFF, 0xFF, 0xFF, 0xFF])).year_1s
        = 9 ∧
      (ds3231_convert_int_calendar blankCalendar
        (ds3231_convert_ext_calendar (calendarAt 23 2099)
          (Internal_DS3231_Calendar_t.ofBytes
            [0xFF, 0xFF, 0xFF, 0xFF, 0xFF, 0xFF, 0xFF]))).year = 2099) ∧
    ((2000 ≤ (calendarAt 0 2100).year ∧ (calendarAt 0 2100).year ≤ 2199) ∧
      (ds3231_convert_ext_calendar (calendarAt 0 2100)
        (Internal_DS3231_Calendar_t.ofBytes [0xFF, 0xFF, 0xFF, 0xFF, 0xFF, 0xFF, 0xFF])).century
        = 1 ∧
      (ds3231_convert_ext_calendar (calendarAt 0 2100)
        (Internal_DS3231_Calendar_t.ofBytes [0xFF, 0xFF, 0xFF, 0xFF, 0xFF, 0xFF, 0xFF])).year_10s
        = 0 ∧
      (ds3231_convert_ext_calendar (calendarAt 0 2100)
        (Internal_DS3231_Calendar_t.ofBytes [0xFF, 0xFF, 0xFF, 0xFF, 0xFF, 0xFF, 0xFF])).year_1s
        = 0 ∧
      (ds3231_convert_int_calendar blankCalendar
        (ds3231_convert_ext_calendar (calendarAt 0 2100)
          (Internal_DS3231_Calendar_t.ofBytes
            [0xFF, 0xFF, 0xFF, 0xFF, 0xFF, 0xFF, 0xFF]))).year = 2100) :=
  ⟨⟨⟨by decide, by decide⟩,
      year_encoding_and_roundtrip (calendarAt 23 2099) blankCalendar
        (Internal_DS3231_Calendar_t.ofBytes [0xFF, 0xFF, 0xFF, 0xFF, 0xFF, 0xFF, 0xFF])
        (by decide) (by decide)⟩,
    ⟨⟨by decide, by decide⟩,
      year_encoding_and_roundtrip (calendarAt 0 2100) blankCalendar
        (Internal_DS3231_Calendar_t.ofBytes [0xFF, 0xFF, 0xFF, 0xFF, 0xFF, 0xFF, 0xFF])
        (by decide) (by decide)⟩⟩

/-! ## Alarms: round trips, register addressing, invalid selector -/

/-- C2: the alarm-1 round trip does not hold.  On a device with zeroed registers and a
zeroed local image, setting the valid alarm 10:15:30, day 23 of the month, succeeds and
writes `[0x30, 0x15, 0x10, 0x42]` at register `0x07`; the read that follows succeeds and
returns day 2 and day type day-of-week, the other fields as set. -/
theorem alarm1_set_get_loses_day_and_day_type :
    (ds3231_set_alarm zeroBus (sampleAlarm DS3231_AlarmType_Alarm1) [0, 0, 0, 0]).1 = ESP_OK ∧
    (ds3231_set_alarm zeroBus (sampleAlarm DS3231_AlarmType_Alarm1) [0, 0, 0, 0]).2.log
      = [BusOp.write 0x07 [0x30, 0x15, 0x10, 0x42]] ∧
    (ds3231_get_alarm
        (ds3231_set_alarm zeroBus (sampleAlarm DS3231_AlarmType_Alarm1) [0, 0, 0, 0]).2
        (sampleAlarm DS3231_AlarmType_Alarm1) [0, 0, 0, 0]).1 = ESP_OK ∧
    (ds3231_get_alarm
        (ds3231_set_alarm zeroBus (sampleAlarm DS3231_AlarmType_Alarm1) [0, 0, 0, 0]).2
        (sampleAlarm DS3231_AlarmType_Alarm1) [0, 0, 0, 0]).2.1
      = { sampleAlarm DS3231_AlarmType_Alarm1 with
          day := 2, day_type := DS3231_AlarmDayType_DayOfWeek } := by
  decide

/-- C3: the alarm-2 round trip does not hold.  On a device with zeroed registers, setting
the valid alarm 10:15, day 23 of the month, succeeds and stores `[0x15, 0x10, 0x23]` at
registers `0x0B..0x0D`; the read that follows succeeds and returns minutes 0, hour 0 and
day 0, the content of registers `0x07..0x09`. -/
theorem alarm2_set_get_returns_alarm1_registers :
    (ds3231_set_alarm zeroBus (sampleAlarm DS3231_AlarmType_Alarm2) [0, 0, 0]).1 = ESP_OK ∧
    List.map (ds3231_set_alarm zeroBus (sampleAlarm DS3231_AlarmType_Alarm2) [0, 0, 0]).2.regs
        [0x0B, 0x0C, 0x0D] = [0x15, 0x10, 0x23] ∧
    (ds3231_get_alarm
        (ds3231_set_alarm zeroBus (sampleAlarm DS3231_AlarmType_Alarm2) [0, 0, 0]).2
        (sampleAlarm DS3231_AlarmType_Alarm2) [0, 0, 0]).1 = ESP_OK ∧
    (ds3231_get_alarm
        (ds3231_set_alarm zeroBus (sampleAlarm DS3231_AlarmType_Alarm2) [0, 0, 0]).2
        (sampleAlarm DS3231_AlarmType_Alarm2) [0, 0, 0]).2.1
      = { sampleAlarm DS3231_AlarmType_Alarm2 with minutes := 0, hour := 0, day := 0 } := by
  decide

/-- C4: with alarm type Alarm2, `ds3231_set_alarm` issues one write of 3 bytes at register
`0x0B`, but `ds3231_get_alarm` issues its one read of 3 bytes at register `0x07`; with alarm
type Alarm1 both address 4 bytes at `0x07`. -/
theorem get_alarm2_addresses_alarm1_registers :
    (ds3231_set_alarm zeroBus (sampleAlarm DS3231_AlarmType_Alarm2) [0, 0, 0]).2.log
      = [BusOp.write 0x0B [0x15, 0x10, 0x23]] ∧
    (ds3231_get_alarm zeroBus (sampleAlarm DS3231_AlarmType_Alarm2) [0, 0, 0]).2.2.log
      = [BusOp.read 0x07 3] ∧
    (ds3231_set_alarm zeroBus (sampleAlarm DS3231_AlarmType_Alarm1) [0, 0, 0, 0]).2.log
      = [BusOp.write 0x07 [0x30, 0x15, 0x10, 0x42]] ∧
    (ds3231_get_alarm zeroBus (sampleAlarm DS3231_AlarmType_Alarm1) [0, 0, 0, 0]).2.2.log
      = [BusOp.read 0x07 4] := by
  decide

/-- C7: for every alarm setting whose alarm type is neither Alarm1 nor Alarm2,
`ds3231_get_alarm` and `ds3231_set_alarm` return `ESP_ERR_INVALID_ARG`; the alarm
structure comes back as it was, and so does the device: no transaction is logged and the
registers are unchanged. -/
theorem alarm_invalid_type_rejected (bus : Bus) (alarm : DS3231_AlarmSetting_t)
    (stack : List Nat) (h1 : alarm.alarm_type ≠ DS3231_AlarmType_Alarm1)
    (h2 : alarm.alarm_type ≠ DS3231_AlarmType_Alarm2) :
    ds3231_get_alarm bus alarm stack = (ESP_ERR_INVALID_ARG, alarm, bus) ∧
    (ds3231_get_alarm bus alarm stack).2.2.log = bus.log ∧
    (ds3231_get_alarm bus alarm stack).2.2.regs = bus.regs ∧
    ds3231_set_alarm bus alarm stack = (ESP_ERR_INVALID_ARG, bus) ∧
    (ds3231_set_alarm bus alarm stack).2.log = bus.log ∧
    (ds3231_set_alarm bus alarm stack).2.regs = bus.regs := by
  simp [ds3231_get_alarm, ds3231_set_alarm, h1, h2]

/-- C7 at alarm type 3 on the zeroed device. -/
theorem alarm_invalid_type_rejected_witness :
    ((sampleAlarm 3).alarm_type ≠ DS3231_AlarmType_Alarm1 ∧
      (sampleAlarm 3).alarm_type ≠ DS3231_AlarmType_Alarm2) ∧
    (ds3231_get_alarm zeroBus (sampleAlarm 3) [0xFF, 0xFF, 0xFF, 0xFF]
        = (ESP_ERR_INVALID_ARG, sampleAlarm 3, zeroBus) ∧
      (ds3231_get_alarm zeroBus (sampleAlarm 3) [0xFF, 0xFF, 0xFF, 0xFF]).2.2.log
        = zeroBus.log ∧
      (ds3231_get_alarm zeroBus (sampleAlarm 3) [0xFF, 0xFF, 0xFF, 0xFF]).2.2.regs
        = zeroBus.regs ∧
      ds3231_set_alarm zeroBus (sampleAlarm 3) [0xFF, 0xFF, 0xFF, 0xFF]
        = (ESP_ERR_INVALID_ARG, zeroBus) ∧
      (ds3231_set_alarm zeroBus (sampleAlarm 3) [0xFF, 0xFF, 0xFF, 0xFF]).2.log
        = zeroBus.log ∧
      (ds3231_set_alarm zeroBus (sampleAlarm 3) [0xFF, 0xFF, 0xFF, 0xFF]).2.regs
        = zeroBus.regs) :=
  ⟨⟨by decide, by decide⟩,
    alarm_invalid_type_rejected zeroBus (sampleAlarm 3) [0xFF, 0xFF, 0xFF, 0xFF]
      (by decide) (by decide)⟩

/-! ## Transport failures -/

/-- C8: `ds3231_get_square_wave` does not return the error of its failed read.  On a
device whose next transaction times out, the control register read returns
`ESP_ERR_TIMEOUT` and the getter returns `ESP_OK`. -/
theorem get_square_wave_masks_read_error :
    (ds3231_get_ctrl timeoutBus (Internal_DS3231_Control_t.ofBytes [0])).1 = ESP_ERR_TIMEOUT ∧
    ESP_ERR_TIMEOUT ≠ ESP_OK ∧
    (ds3231_get_square_wave timeoutBus DS3231_SquareWave_4p096kHz [0]).1 = ESP_OK ∧
    (ds3231_get_square_wave timeoutBus DS3231_SquareWave_4p096kHz [0]).2.2.log
      = [BusOp.read 0x0E 1] := by
  decide

/-- C9: `ds3231_set_intr_en` writes after a failed read.  On a device whose control
register holds `0x1C` and whose next transaction times out, with the local image byte
holding `0xFF`, the call logs the failed read and then a write of `0xFF`, the register then
holds `0xFF`, and the call returns `ESP_OK`. -/
theorem set_intr_en_writes_after_failed_read :
    (ds3231_get_ctrl timeoutBus (Internal_DS3231_Control_t.ofBytes [0xFF])).1
      = ESP_ERR_TIMEOUT ∧
    timeoutBus.regs 0x0E = 0x1C ∧
    (ds3231_set_intr_en timeoutBus DS3231_Interrupt_None [0xFF]).1 = ESP_OK ∧
    (ds3231_set_intr_en timeoutBus DS3231_Interrupt_None [0xFF]).2.log
      = [BusOp.read 0x0E 1, BusOp.write 0x0E [0xFF]] ∧
    (ds3231_set_intr_en timeoutBus DS3231_Interrupt_None [0xFF]).2.regs 0x0E = 0xFF := by
  decide

/-- C10: when the bus read fails, every decoding getter hands back the caller's output
value exactly as it was before the call: the calendar, the alarm setting (whatever its
alarm type), the temperature (or the null pointer), and the one-byte `value` of the
remaining getters. -/
theorem getters_keep_output_on_read_failure (bus : Bus) (e : Int) (rest : List Int)
    (stack : List Nat) (calendar : DS3231_Calendar_t) (alarm : DS3231_AlarmSetting_t)
    (temperature : Option ℚ) (value : Nat)
    (hr : bus.results = e :: rest) (he : e ≠ ESP_OK) :
    (ds3231_get_calendar bus calendar stack).2.1 = calendar ∧
    (ds3231_get_alarm bus alarm stack).2.1 = alarm ∧
    (ds3231_get_temperature bus temperature stack).2.1 = temperature ∧
    (ds3231_get_intr_en bus value stack).2.1 = value ∧
    (ds3231_get_intr_flag bus value stack).2.1 = value ∧
    (ds3231_get_square_wave bus value stack).2.1 = value ∧
    (ds3231_get_convert_temperature bus value stack).2.1 = value ∧
    (ds3231_get_osc bus value stack).2.1 = value ∧
    (ds3231_get_32kHz bus value stack).2.1 = value ∧
    (ds3231_is_busy bus value stack).2.1 = value ∧
    (ds3231_get_osc_stop_flag bus value stack).2.1 = value := by
  refine ⟨?_, ?_, ?_, ?_, ?_, ?_, ?_, ?_, ?_, ?_, ?_⟩
  · simp [ds3231_get_calendar, i2c_read_failure bus _ _ _ e rest hr he, he]
  · unfold ds3231_get_alarm
    split
    · simp [ds3231_get_alarm1, i2c_read_failure bus _ _ _ e rest hr he, he]
    · split
      · simp [ds3231_get_alarm2, i2c_read_failure bus _ _ _ e rest hr he, he]
      · rfl
  · simp [ds3231_get_temperature, i2c_read_failure bus _ _ _ e rest hr he, he]
  · simp [ds3231_get_intr_en, ds3231_get_ctrl, i2c_read_failure bus _ _ _ e rest hr he, he]
  · simp [ds3231_get_intr_flag, ds3231_get_cs, i2c_read_failure bus _ _ _ e rest hr he, he]
  · simp [ds3231_get_square_wave, ds3231_get_ctrl, i2c_read_failure bus _ _ _ e rest hr he, he]
  · simp [ds3231_get_convert_temperature, ds3231_get_ctrl,
      i2c_read_failure bus _ _ _ e rest hr he, he]
  · simp [ds3231_get_osc, ds3231_get_ctrl, i2c_read_failure bus _ _ _ e rest hr he, he]
  · simp [ds3231_get_32kHz, ds3231_get_cs, i2c_read_failure bus _ _ _ e rest hr he, he]
  · simp [ds3231_is_busy, ds3231_get_cs, i2c_read_failure bus _ _ _ e rest hr he, he]
  · simp [ds3231_get_osc_stop_flag, ds3231_get_cs, i2c_read_failure bus _ _ _ e rest hr he, he]

/-- C10 on the device whose next transaction times out, with a local buffer holding
`[1, 2, 3]`: each getter returns the value it was given. -/
theorem getters_keep_output_on_read_failure_witness :
    (timeoutBus.results = [ESP_ERR_TIMEOUT] ∧ ESP_ERR_TIMEOUT ≠ ESP_OK) ∧
    ((ds3231_get_calendar timeoutBus morningCalendar [1, 2, 3]).2.1 = morningCalendar ∧
    (ds3231_get_alarm timeoutBus (sampleAlarm 1) [1, 2, 3]).2.1 = sampleAlarm 1 ∧
    (ds3231_get_temperature timeoutBus (some 21) [1, 2, 3]).2.1 = some 21 ∧
    (ds3231_get_intr_en timeoutBus 0xAA [1, 2, 3]).2.1 = 0xAA ∧
    (ds3231_get_intr_flag timeoutBus 0xAA [1, 2, 3]).2.1 = 0xAA ∧
    (ds3231_get_square_wave timeoutBus 0xAA [1, 2, 3]).2.1 = 0xAA ∧
    (ds3231_get_convert_temperature timeoutBus 0xAA [1, 2, 3]).2.1 = 0xAA ∧
    (ds3231_get_osc timeoutBus 0xAA [1, 2, 3]).2.1 = 0xAA ∧
    (ds3231_get_32kHz timeoutBus 0xAA [1, 2, 3]).2.1 = 0xAA ∧
    (ds3231_is_busy timeoutBus 0xAA [1, 2, 3]).2.1 = 0xAA ∧
    (ds3231_get_osc_stop_flag timeoutBus 0xAA [1, 2, 3]).2.1 = 0xAA) :=
  ⟨⟨rfl, by decide⟩,
    getters_keep_output_on_read_failure timeoutBus ESP_ERR_TIMEOUT [] [1, 2, 3]
      morningCalendar (sampleAlarm 1) (some 21) 0xAA rfl (by decide)⟩

/-! ## Successful transactions -/

/-- Every bit-field read off a byte fits its width. -/
theorem bits_lt (b lo w : Nat) : bits b lo w < 2 ^ w := by
  unfold bits
  exact Nat.mod_lt _ (Nat.pow_pos (by decide))

/-- The result of a read is the result of the next transaction. -/
theorem i2c_read_result (bus : Bus) (reg : Nat) (data : List Nat) (n : Nat) :
    (ds3231_i2c_read bus reg data n).1 = bus.next.1 := by
  unfold ds3231_i2c_read
  by_cases h : bus.next.1 = ESP_OK <;> simp [h]

/-- The result of a write is the result of the next transaction. -/
theorem i2c_write_result (bus : Bus) (reg : Nat) (data : List Nat) (n : Nat) :
    (ds3231_i2c_write bus reg data n).1 = bus.next.1 := by
  unfold ds3231_i2c_write
  by_cases h : bus.next.1 = ESP_OK <;> simp [h]

/-- A read whose transaction succeeds delivers the register bytes and logs the one
transaction. -/
theorem i2c_read_success (bus : Bus) (reg : Nat) (data : List Nat) (n : Nat)
    (h : bus.next.1 = ESP_OK) :
    ds3231_i2c_read bus reg data n
      = (ESP_OK, (List.range n).map (fun k => bus.regs (reg + k) % 256),
          { bus with results := bus.results.tail, log := bus.log ++ [BusOp.read reg n] }) := by
  unfold ds3231_i2c_read Bus.next at *
  rcases hr : bus.results with _ | ⟨r, rs⟩
  · simp [hr]
  · rw [hr] at h
    simp only at h
    simp [h, hr]

/-- A write whose transaction succeeds stores the bytes sent and logs the one transaction. -/
theorem i2c_write_success (bus : Bus) (reg : Nat) (data : List Nat) (n : Nat)
    (h : bus.next.1 = ESP_OK) :
    ds3231_i2c_write bus reg data n
      = (ESP_OK,
          { regs := fun a =>
              if reg ≤ a ∧ a < reg + (data.take n).length then byteAt (data.take n) (a - reg)
              else bus.regs a
            results := bus.results.tail
            log := bus.log ++ [BusOp.write reg (data.take n)] }) := by
  unfold ds3231_i2c_write Bus.next at *
  rcases hr : bus.results with _ | ⟨r, rs⟩
  · simp [hr]
  · rw [hr] at h
    simp only at h
    simp [h, hr]

/-- Whatever its result, a write logs the one transaction with the bytes sent. -/
theorem i2c_write_log (bus : Bus) (reg : Nat) (data : List Nat) (n : Nat) :
    (ds3231_i2c_write bus reg data n).2.log = bus.log ++ [BusOp.write reg (data.take n)] := by
  unfold ds3231_i2c_write Bus.next
  rcases hr : bus.results with _ | ⟨r, rs⟩
  · simp [hr]
  · by_cases hok : r = ESP_OK <;> simp [hok, hr]

/-- A control register read whose transaction succeeds delivers the image of the register
byte. -/
theorem get_ctrl_success (bus : Bus) (ctrl : Internal_DS3231_Control_t)
    (h : bus.next.1 = ESP_OK) :
    ds3231_get_ctrl bus ctrl
      = (ESP_OK, Internal_DS3231_Control_t.ofBytes [bus.regs DS3231_CTRL_REG % 256],
          { bus with results := bus.results.tail,
                     log := bus.log ++ [BusOp.read DS3231_CTRL_REG 1] }) := by
  unfold ds3231_get_ctrl
  rw [i2c_read_success _ _ _ _ h]
  rfl

/-- A control/status register read whose transaction succeeds delivers the image of the
register byte. -/
theorem get_cs_success (bus : Bus) (cs : Internal_DS3231_CtrlStat_t)
    (h : bus.next.1 = ESP_OK) :
    ds3231_get_cs bus cs
      = (ESP_OK, Internal_DS3231_CtrlStat_t.ofBytes [bus.regs DS3231_CS_REG % 256],
          { bus with results := bus.results.tail,
                     log := bus.log ++ [BusOp.read DS3231_CS_REG 1] }) := by
  unfold ds3231_get_cs
  rw [i2c_read_success _ _ _ _ h]
  rfl

/-- The result of a control register read is the result of the next transaction. -/
theorem get_ctrl_result (bus : Bus) (ctrl : Internal_DS3231_Control_t) :
    (ds3231_get_ctrl bus ctrl).1 = bus.next.1 := by
  unfold ds3231_get_ctrl
  exact i2c_read_result bus _ _ _

/-- The result of a control/status register read is the result of the next transaction. -/
theorem get_cs_result (bus : Bus) (cs : Internal_DS3231_CtrlStat_t) :
    (ds3231_get_cs bus cs).1 = bus.next.1 := by
  unfold ds3231_get_cs
  exact i2c_read_result bus _ _ _

/-- A call of `ds3231_set_square_wave` that returns `ESP_OK` had its read succeed. -/
theorem set_square_wave_read_ok (bus : Bus) (sqw : Nat) (stack : List Nat)
    (hok : (ds3231_set_square_wave bus sqw stack).1 = ESP_OK) : bus.next.1 = ESP_OK := by
  by_contra hrd
  have h1 : (ds3231_get_ctrl bus (Internal_DS3231_Control_t.ofBytes stack)).1 ≠ ESP_OK := by
    rw [get_ctrl_result]; exact hrd
  have : (ds3231_set_square_wave bus sqw stack).1
      = (ds3231_get_ctrl bus (Internal_DS3231_Control_t.ofBytes stack)).1 := by
    simp [ds3231_set_square_wave, h1]
  exact h1 (this ▸ hok)

/-! ## Square wave -/

/-- C11: a call of `ds3231_set_square_wave` that returns `ESP_OK` issued one read and one
write of the control register, and the byte `w` written and stored relates to the byte
read as follows.  For `DS3231_SquareWave_Off`: bit 6 of `w` is clear, bits 0-5 (with the
rate bits 3-4) and bit 7 are those read.  For a rate 0..3: bits 3-4 of `w` are the rate and
bit 6 is set, bits 0-2 (alarm enables, interrupt control), bit 5 (convert) and bit 7
(oscillator disable) are those read. -/
theorem set_square_wave_changes_only_its_bits (bus : Bus) (sqw : Nat) (stack : List Nat)
    (hs : sqw = DS3231_SquareWave_Off ∨ sqw ≤ 3)
    (hok : (ds3231_set_square_wave bus sqw stack).1 = ESP_OK) :
    ∃ w, (ds3231_set_square_wave bus sqw stack).2.log
        = bus.log ++ [BusOp.read DS3231_CTRL_REG 1, BusOp.write DS3231_CTRL_REG [w]] ∧
      (ds3231_set_square_wave bus sqw stack).2.regs DS3231_CTRL_REG = w ∧
      (if sqw = DS3231_SquareWave_Off then
        bits w 6 1 = 0 ∧ bits w 0 6 = bits (bus.regs DS3231_CTRL_REG) 0 6 ∧
        bits w 7 1 = bits (bus.regs DS3231_CTRL_REG) 7 1
      else
        bits w 3 2 = sqw ∧ bits w 6 1 = 1 ∧
        bits w 0 3 = bits (bus.regs DS3231_CTRL_REG) 0 3 ∧
        bits w 5 1 = bits (bus.regs DS3231_CTRL_REG) 5 1 ∧
        bits w 7 1 = bits (bus.regs DS3231_CTRL_REG) 7 1) := by
  have hrd := set_square_wave_read_ok bus sqw stack hok
  simp only [ds3231_set_square_wave, get_ctrl_success _ _ hrd, ds3231_set_ctrl,
    ne_eq, not_true_eq_false, if_false] at hok ⊢
  rw [i2c_write_result] at hok
  rw [i2c_write_success _ _ _ _ hok]
  generalize bus.regs DS3231_CTRL_REG = c
  rcases hs with hs | hs
  · subst hs
    refine ⟨_, ?_, rfl, ?_⟩
    · simp [Internal_DS3231_Control_t.toBytes, byteAt, DS3231_CTRL_REG]
    · simp [Internal_DS3231_Control_t.toBytes, Internal_DS3231_Control_t.ofBytes, bits, byteAt,
        DS3231_CTRL_REG, DS3231_SquareWave_Off]
      refine ⟨?_, ?_, ?_⟩ <;> omega
  · have hne : sqw ≠ DS3231_SquareWave_Off := by
      unfold DS3231_SquareWave_Off; omega
    have hm : sqw % 4 = sqw := by omega
    refine ⟨_, ?_, rfl, ?_⟩
    · simp [Internal_DS3231_Control_t.toBytes, byteAt, DS3231_CTRL_REG]
    · simp [Internal_DS3231_Control_t.toBytes, Internal_DS3231_Control_t.ofBytes, bits, byteAt,
        DS3231_CTRL_REG, hne, hm]
      refine ⟨?_, ?_, ?_, ?_, ?_⟩ <;> omega

/-- C11 on a control register holding `0xFF`: switching the square wave off stores `0xBF`,
and selecting the 1.024kHz rate stores `0xEF`. -/
theorem set_square_wave_changes_only_its_bits_witness :
    ((DS3231_SquareWave_Off = DS3231_SquareWave_Off ∨ DS3231_SquareWave_Off ≤ 3) ∧
      (ds3231_set_square_wave (ctrlBus 0xFF 0) DS3231_SquareWave_Off [0]).1 = ESP_OK ∧
      ∃ w, (ds3231_set_square_wave (ctrlBus 0xFF 0) DS3231_SquareWave_Off [0]).2.log
          = (ctrlBus 0xFF 0).log
              ++ [BusOp.read DS3231_CTRL_REG 1, BusOp.write DS3231_CTRL_REG [w]] ∧
        (ds3231_set_square_wave (ctrlBus 0xFF 0) DS3231_SquareWave_Off [0]).2.regs
            DS3231_CTRL_REG = w ∧
        bits w 6 1 = 0 ∧ bits w 0 6 = bits ((ctrlBus 0xFF 0).regs DS3231_CTRL_REG) 0 6 ∧
        bits w 7 1 = bits ((ctrlBus 0xFF 0).regs DS3231_CTRL_REG) 7 1) ∧
    ((DS3231_SquareWave_1p024kHz = DS3231_SquareWave_Off ∨ DS3231_SquareWave_1p024kHz ≤ 3) ∧
      (ds3231_set_square_wave (ctrlBus 0xFF 0) DS3231_SquareWave_1p024kHz [0]).1 = ESP_OK ∧
      ∃ w, (ds3231_set_square_wave (ctrlBus 0xFF 0) DS3231_SquareWave_1p024kHz [0]).2.log
          = (ctrlBus 0xFF 0).log
              ++ [BusOp.read DS3231_CTRL_REG 1, BusOp.write DS3231_CTRL_REG [w]] ∧
        (ds3231_set_square_wave (ctrlBus 0xFF 0) DS3231_SquareWave_1p024kHz [0]).2.regs
            DS3231_CTRL_REG = w ∧
        bits w 3 2 = DS3231_SquareWave_1p024kHz ∧ bits w 6 1 = 1 ∧
        bits w 0 3 = bits ((ctrlBus 0xFF 0).regs DS3231_CTRL_REG) 0 3 ∧
        bits w 5 1 = bits ((ctrlBus 0xFF 0).regs DS3231_CTRL_REG) 5 1 ∧
        bits w 7 1 = bits ((ctrlBus 0xFF 0).regs DS3231_CTRL_REG) 7 1) ∧
    (ds3231_set_square_wave (ctrlBus 0xFF 0) DS3231_SquareWave_Off [0]).2.regs
        DS3231_CTRL_REG = 0xBF ∧
    (ds3231_set_square_wave (ctrlBus 0xFF 0) DS3231_SquareWave_1p024kHz [0]).2.regs
        DS3231_CTRL_REG = 0xEF :=
  ⟨⟨by decide, by decide,
      set_square_wave_changes_only_its_bits (ctrlBus 0xFF 0) DS3231_SquareWave_Off [0]
        (by decide) (by decide)⟩,
    ⟨by decide, by decide,
      set_square_wave_changes_only_its_bits (ctrlBus 0xFF 0) DS3231_SquareWave_1p024kHz [0]
        (by decide) (by decide)⟩,
    by decide, by decide⟩

/-- C12: on a device that stores the written byte, whatever the control register held, a
call of `ds3231_set_square_wave` that returns `ESP_OK` followed by a
`ds3231_get_square_wave` whose read succeeds yields the setting that was set:
`DS3231_SquareWave_Off` for off, the rate itself for each of the four rates 0..3. -/
theorem square_wave_set_then_get (bus : Bus) (sqw out : Nat) (stack1 stack2 : List Nat)
    (hs : sqw = DS3231_SquareWave_Off ∨ sqw ≤ 3)
    (hset : (ds3231_set_square_wave bus sqw stack1).1 = ESP_OK)
    (hget : (ds3231_set_square_wave bus sqw stack1).2.next.1 = ESP_OK) :
    (ds3231_get_square_wave (ds3231_set_square_wave bus sqw stack1).2 out stack2).2.1
      = sqw := by
  have hrd := set_square_wave_read_ok bus sqw stack1 hset
  simp only [ds3231_get_square_wave, get_ctrl_success _ _ hget, if_true]
  simp only [ds3231_set_square_wave, get_ctrl_success _ _ hrd, ds3231_set_ctrl,
    ne_eq, not_true_eq_false, if_false] at hset ⊢
  rw [i2c_write_result] at hset
  rw [i2c_write_success _ _ _ _ hset]
  generalize bus.regs DS3231_CTRL_REG = c
  rcases hs with hs | hs
  · subst hs
    simp [Internal_DS3231_Control_t.toBytes, Internal_DS3231_Control_t.ofBytes, bits, byteAt,
      DS3231_CTRL_REG, DS3231_SquareWave_Off]
    split <;> omega
  · have hne : ¬ sqw = 255 := by omega
    have hm : sqw % 4 = sqw := by omega
    simp [Internal_DS3231_Control_t.toBytes, Internal_DS3231_Control_t.ofBytes, bits, byteAt,
      DS3231_CTRL_REG, DS3231_SquareWave_Off, hne, hm]
    split <;> omega

/-- C12 at two inputs: off over a control register holding `0xFF` (rate bits set) reads
back as off, and the 8.192kHz rate over a control register holding `0x00` reads back as
that rate. -/
theorem square_wave_set_then_get_witness :
    ((DS3231_SquareWave_Off = DS3231_SquareWave_Off ∨ DS3231_SquareWave_Off ≤ 3) ∧
      (ds3231_set_square_wave (ctrlBus 0xFF 0) DS3231_SquareWave_Off [0]).1 = ESP_OK ∧
      (ds3231_set_square_wave (ctrlBus 0xFF 0) DS3231_SquareWave_Off [0]).2.next.1 = ESP_OK ∧
      (ds3231_get_square_wave
          (ds3231_set_square_wave (ctrlBus 0xFF 0) DS3231_SquareWave_Off [0]).2
          DS3231_SquareWave_1Hz [0]).2.1 = DS3231_SquareWave_Off) ∧
    ((DS3231_SquareWave_8p192kHz = DS3231_SquareWave_Off ∨ DS3231_SquareWave_8p192kHz ≤ 3) ∧
      (ds3231_set_square_wave (ctrlBus 0x00 0) DS3231_SquareWave_8p192kHz [0]).1 = ESP_OK ∧
      (ds3231_set_square_wave (ctrlBus 0x00 0) DS3231_SquareWave_8p192kHz [0]).2.next.1
        = ESP_OK ∧
      (ds3231_get_square_wave
          (ds3231_set_square_wave (ctrlBus 0x00 0) DS3231_SquareWave_8p192kHz [0]).2
          DS3231_SquareWave_Off [0]).2.1 = DS3231_SquareWave_8p192kHz) :=
  ⟨⟨by decide, by decide, by decide,
      square_wave_set_then_get (ctrlBus 0xFF 0) DS3231_SquareWave_Off DS3231_SquareWave_1Hz
        [0] [0] (by decide) (by decide) (by decide)⟩,
    ⟨by decide, by decide, by decide,
      square_wave_set_then_get (ctrlBus 0x00 0) DS3231_SquareWave_8p192kHz
        DS3231_SquareWave_Off [0] [0] (by decide) (by decide) (by decide)⟩⟩

/-! ## Interrupt enables and fired flags -/

/-- Supporting lemma: when the read of the control register succeeds and
`ds3231_set_intr_en` returns `ESP_OK`, the call issued one read and one write of the
control register, and the byte `w` written and stored has bit 2 (interrupt control) set
exactly when the flag set is not zero, bit 0 (alarm-1 enable) set exactly when the flag
set has `0x01`, bit 1 (alarm-2 enable) set exactly when it has `0x02`, and bits 3-7 as
read.  The return value alone does not give this: see
`set_intr_en_ok_return_stores_unread_byte`. -/
theorem set_intr_en_bits (bus : Bus) (intr_flags : Nat) (stack : List Nat)
    (hrd : bus.next.1 = ESP_OK)
    (hok : (ds3231_set_intr_en bus intr_flags stack).1 = ESP_OK) :
    ∃ w, (ds3231_set_intr_en bus intr_flags stack).2.log
        = bus.log ++ [BusOp.read DS3231_CTRL_REG 1, BusOp.write DS3231_CTRL_REG [w]] ∧
      (ds3231_set_intr_en bus intr_flags stack).2.regs DS3231_CTRL_REG = w ∧
      bits w 2 1 = (if intr_flags ≠ 0 then 1 else 0) ∧
      bits w 0 1
        = (if intr_flags &&& DS3231_Interrupt_Alarm_1 = DS3231_Interrupt_Alarm_1 then 1 else 0) ∧
      bits w 1 1
        = (if intr_flags &&& DS3231_Interrupt_Alarm_2 = DS3231_Interrupt_Alarm_2 then 1 else 0) ∧
      bits w 3 5 = bits (bus.regs DS3231_CTRL_REG) 3 5 := by
  simp only [ds3231_set_intr_en, get_ctrl_success _ _ hrd, ds3231_set_ctrl, if_true] at hok ⊢
  rw [i2c_write_result] at hok
  rw [i2c_write_success _ _ _ _ hok]
  generalize bus.regs DS3231_CTRL_REG = c
  refine ⟨_, ?_, rfl, ?_⟩
  · simp [Internal_DS3231_Control_t.toBytes, byteAt, DS3231_CTRL_REG]
  · simp only [Internal_DS3231_Control_t.toBytes, Internal_DS3231_Control_t.ofBytes, bits, byteAt,
      DS3231_CTRL_REG, List.take, List.getD_cons_zero, List.length_cons, List.length_nil,
      Nat.reducePow, Nat.reduceAdd, Nat.sub_self, le_refl, Nat.lt_add_one, and_self, if_true,
      Nat.div_one]
    have h1 : (if intr_flags ≠ 0 then 1 else 0 : Nat) ≤ 1 := by split <;> omega
    have h2 : (if intr_flags &&& DS3231_Interrupt_Alarm_1 = DS3231_Interrupt_Alarm_1
      then 1 else 0 : Nat) ≤ 1 := by split <;> omega
    have h3 : (if intr_flags &&& DS3231_Interrupt_Alarm_2 = DS3231_Interrupt_Alarm_2
      then 1 else 0 : Nat) ≤ 1 := by split <;> omega
    generalize (if intr_flags ≠ 0 then 1 else 0 : Nat) = i at h1 ⊢
    generalize (if intr_flags &&& DS3231_Interrupt_Alarm_1 = DS3231_Interrupt_Alarm_1
      then 1 else 0 : Nat) = a at h2 ⊢
    generalize (if intr_flags &&& DS3231_Interrupt_Alarm_2 = DS3231_Interrupt_Alarm_2
      then 1 else 0 : Nat) = b at h3 ⊢
    refine ⟨?_, ?_, ?_, ?_⟩ <;> omega

/-- The supporting lemma on a control register holding `0xFB`: enabling only alarm 2
stores interrupt control 1, alarm-2 enable 1, alarm-1 enable 0 (byte `0xFE`), and the empty
flag set clears all three (byte `0xF8`). -/
theorem set_intr_en_bits_witness :
    (((ctrlBus 0xFB 0).next.1 = ESP_OK ∧
      (ds3231_set_intr_en (ctrlBus 0xFB 0) DS3231_Interrupt_Alarm_2 [0]).1 = ESP_OK) ∧
      ∃ w, (ds3231_set_intr_en (ctrlBus 0xFB 0) DS3231_Interrupt_Alarm_2 [0]).2.log
          = (ctrlBus 0xFB 0).log
              ++ [BusOp.read DS3231_CTRL_REG 1, BusOp.write DS3231_CTRL_REG [w]] ∧
        (ds3231_set_intr_en (ctrlBus 0xFB 0) DS3231_Interrupt_Alarm_2 [0]).2.regs
            DS3231_CTRL_REG = w ∧
        bits w 2 1 = 1 ∧ bits w 0 1 = 0 ∧ bits w 1 1 = 1 ∧
        bits w 3 5 = bits ((ctrlBus 0xFB 0).regs DS3231_CTRL_REG) 3 5) ∧
    (((ctrlBus 0xFB 0).next.1 = ESP_OK ∧
      (ds3231_set_intr_en (ctrlBus 0xFB 0) DS3231_Interrupt_None [0]).1 = ESP_OK) ∧
      ∃ w, (ds3231_set_intr_en (ctrlBus 0xFB 0) DS3231_Interrupt_None [0]).2.log
          = (ctrlBus 0xFB 0).log
              ++ [BusOp.read DS3231_CTRL_REG 1, BusOp.write DS3231_CTRL_REG [w]] ∧
        (ds3231_set_intr_en (ctrlBus 0xFB 0) DS3231_Interrupt_None [0]).2.regs
            DS3231_CTRL_REG = w ∧
        bits w 2 1 = 0 ∧ bits w 0 1 = 0 ∧ bits w 1 1 = 0 ∧
        bits w 3 5 = bits ((ctrlBus 0xFB 0).regs DS3231_CTRL_REG) 3 5) ∧
    (ds3231_set_intr_en (ctrlBus 0xFB 0) DS3231_Interrupt_Alarm_2 [0]).2.regs DS3231_CTRL_REG
      = 0xFE ∧
    (ds3231_set_intr_en (ctrlBus 0xFB 0) DS3231_Interrupt_None [0]).2.regs DS3231_CTRL_REG
      = 0xF8 :=
  ⟨⟨⟨by decide, by decide⟩,
      set_intr_en_bits (ctrlBus 0xFB 0) DS3231_Interrupt_Alarm_2 [0] (by decide) (by decide)⟩,
    ⟨⟨by decide, by decide⟩,
      set_intr_en_bits (ctrlBus 0xFB 0) DS3231_Interrupt_None [0] (by decide) (by decide)⟩,
    by decide, by decide⟩

/-- A call of `ds3231_clear_intr_flag` that returns `ESP_OK` had its read succeed. -/
theorem clear_intr_flag_read_ok (bus : Bus) (intr_flags : Nat) (stack : List Nat)
    (hok : (ds3231_clear_intr_flag bus intr_flags stack).1 = ESP_OK) :
    bus.next.1 = ESP_OK := by
  by_contra hrd
  have h1 : (ds3231_get_cs bus (Internal_DS3231_CtrlStat_t.ofBytes stack)).1 ≠ ESP_OK := by
    rw [get_cs_result]; exact hrd
  have : (ds3231_clear_intr_flag bus intr_flags stack).1
      = (ds3231_get_cs bus (Internal_DS3231_CtrlStat_t.ofBytes stack)).1 := by
    simp [ds3231_clear_intr_flag, h1]
  exact h1 (this ▸ hok)

/-- C14: a call of `ds3231_clear_intr_flag` that returns `ESP_OK` issued one read and one
write of the control/status register, and the byte `w` written and stored has bit 0
(alarm-1 fired) cleared when the flag set has `0x01` and as read otherwise, bit 1 (alarm-2
fired) cleared when the flag set has `0x02` and as read otherwise, and bits 2-7 as read; no
bit is set that was clear.  A `ds3231_get_intr_flag` whose read then succeeds reports
exactly the fired bits of `w`. -/
theorem clear_intr_flag_clears_only_requested (bus : Bus) (intr_flags out : Nat)
    (stack1 stack2 : List Nat)
    (hok : (ds3231_clear_intr_flag bus intr_flags stack1).1 = ESP_OK)
    (hget : (ds3231_clear_intr_flag bus intr_flags stack1).2.next.1 = ESP_OK) :
    ∃ w, (ds3231_clear_intr_flag bus intr_flags stack1).2.log
        = bus.log ++ [BusOp.read DS3231_CS_REG 1, BusOp.write DS3231_CS_REG [w]] ∧
      (ds3231_clear_intr_flag bus intr_flags stack1).2.regs DS3231_CS_REG = w ∧
      bits w 0 1
        = (if intr_flags &&& DS3231_Interrupt_Alarm_1 = DS3231_Interrupt_Alarm_1 then 0
           else bits (bus.regs DS3231_CS_REG) 0 1) ∧
      bits w 1 1
        = (if intr_flags &&& DS3231_Interrupt_Alarm_2 = DS3231_Interrupt_Alarm_2 then 0
           else bits (bus.regs DS3231_CS_REG) 1 1) ∧
      bits w 2 6 = bits (bus.regs DS3231_CS_REG) 2 6 ∧
      bits w 0 1 ≤ bits (bus.regs DS3231_CS_REG) 0 1 ∧
      bits w 1 1 ≤ bits (bus.regs DS3231_CS_REG) 1 1 ∧
      (ds3231_get_intr_flag (ds3231_clear_intr_flag bus intr_flags stack1).2 out stack2).1
        = ESP_OK ∧
      (ds3231_get_intr_flag (ds3231_clear_intr_flag bus intr_flags stack1).2 out stack2).2.1
        = (if bits w 0 1 = 1 then DS3231_Interrupt_Alarm_1 else DS3231_Interrupt_None)
          ||| (if bits w 1 1 = 1 then DS3231_Interrupt_Alarm_2 else DS3231_Interrupt_None) := by
  have hrd := clear_intr_flag_read_ok bus intr_flags stack1 hok
  simp only [ds3231_get_intr_flag, get_cs_success _ _ hget, if_true]
  simp only [ds3231_clear_intr_flag, get_cs_success _ _ hrd, ds3231_set_cs,
    ne_eq, not_true_eq_false, if_false] at hok ⊢
  rw [i2c_write_result] at hok
  rw [i2c_write_success _ _ _ _ hok]
  generalize bus.regs DS3231_CS_REG = s
  refine ⟨_, ?_, rfl, ?_⟩
  · simp [Internal_DS3231_CtrlStat_t.toBytes, byteAt, DS3231_CS_REG]
  · simp only [Internal_DS3231_CtrlStat_t.toBytes, Internal_DS3231_CtrlStat_t.ofBytes, bits, byteAt,
      DS3231_CS_REG, List.take, List.getD_cons_zero, List.length_cons, List.length_nil,
      Nat.reducePow, Nat.reduceAdd, Nat.sub_self, le_refl, Nat.lt_add_one, and_self, if_true,
      Nat.div_one]
    have e1 : s % 256 % 2 = s % 2 := by omega
    have e2 : s % 256 / 2 % 2 = s / 2 % 2 := by omega
    simp only [e1, e2]
    have h1 : (if intr_flags &&& DS3231_Interrupt_Alarm_1 = DS3231_Interrupt_Alarm_1
      then 0 else s % 2 : Nat) ≤ s % 2 := by split <;> omega
    have h2 : (if intr_flags &&& DS3231_Interrupt_Alarm_2 = DS3231_Interrupt_Alarm_2
      then 0 else s / 2 % 2 : Nat) ≤ s / 2 % 2 := by split <;> omega
    generalize (if intr_flags &&& DS3231_Interrupt_Alarm_1 = DS3231_Interrupt_Alarm_1
      then 0 else s % 2 : Nat) = a at h1 ⊢
    generalize (if intr_flags &&& DS3231_Interrupt_Alarm_2 = DS3231_Interrupt_Alarm_2
      then 0 else s / 2 % 2 : Nat) = b at h2 ⊢
    generalize hW : a + 2 * b + 4 * (s % 256 / 4 % 2) + 8 * (s % 256 / 8 % 2)
      + 16 * (s % 256 / 16 % 8) + 128 * (s % 256 / 128 % 2) = W
    have hW2 : W = a + 2 * b + 4 * (s / 4 % 64) := by omega
    clear hW
    have ha : a ≤ 1 := by omega
    have hb : b ≤ 1 := by omega
    have hq : s / 4 % 64 < 64 := by omega
    generalize s / 4 % 64 = q at hW2 hq ⊢
    have w0 : W % 2 = a := by omega
    have w1 : W / 2 % 2 = b := by omega
    have w2 : W / 4 % 64 = q := by omega
    have w3 : W % 256 % 2 = a := by omega
    have w4 : W % 256 / 2 % 2 = b := by omega
    simp only [w0, w1, w2, w3, w4, true_and]
    refine ⟨h1, h2, ?_⟩
    clear hW2 w0 w1 w2 w3 w4 h1 h2 hq
    interval_cases a <;> interval_cases b <;> decide

/-- C14 on a control/status register holding `0x8B` (both fired bits, the 32kHz enable and
the oscillator-stopped flag set): clearing only alarm 1 stores `0x8A`, and
`ds3231_get_intr_flag` then reports exactly `DS3231_Interrupt_Alarm_2`. -/
theorem clear_intr_flag_clears_only_requested_witness :
    ((ds3231_clear_intr_flag (ctrlBus 0 0x8B) DS3231_Interrupt_Alarm_1 [0]).1 = ESP_OK ∧
      (ds3231_clear_intr_flag (ctrlBus 0 0x8B) DS3231_Interrupt_Alarm_1 [0]).2.next.1
        = ESP_OK) ∧
    (∃ w, (ds3231_clear_intr_flag (ctrlBus 0 0x8B) DS3231_Interrupt_Alarm_1 [0]).2.log
        = (ctrlBus 0 0x8B).log
            ++ [BusOp.read DS3231_CS_REG 1, BusOp.write DS3231_CS_REG [w]] ∧
      (ds3231_clear_intr_flag (ctrlBus 0 0x8B) DS3231_Interrupt_Alarm_1 [0]).2.regs
          DS3231_CS_REG = w ∧
      bits w 0 1 = 0 ∧
      bits w 1 1 = bits ((ctrlBus 0 0x8B).regs DS3231_CS_REG) 1 1 ∧
      bits w 2 6 = bits ((ctrlBus 0 0x8B).regs DS3231_CS_REG) 2 6 ∧
      bits w 0 1 ≤ bits ((ctrlBus 0 0x8B).regs DS3231_CS_REG) 0 1 ∧
      bits w 1 1 ≤ bits ((ctrlBus 0 0x8B).regs DS3231_CS_REG) 1 1 ∧
      (ds3231_get_intr_flag
          (ds3231_clear_intr_flag (ctrlBus 0 0x8B) DS3231_Interrupt_Alarm_1 [0]).2
          DS3231_Interrupt_None [0]).1 = ESP_OK ∧
      (ds3231_get_intr_flag
          (ds3231_clear_intr_flag (ctrlBus 0 0x8B) DS3231_Interrupt_Alarm_1 [0]).2
          DS3231_Interrupt_None [0]).2.1
        = (if bits w 0 1 = 1 then DS3231_Interrupt_Alarm_1 else DS3231_Interrupt_None)
          ||| (if bits w 1 1 = 1 then DS3231_Interrupt_Alarm_2
               else DS3231_Interrupt_None)) ∧
    (ds3231_clear_intr_flag (ctrlBus 0 0x8B) DS3231_Interrupt_Alarm_1 [0]).2.regs
        DS3231_CS_REG = 0x8A ∧
    (ds3231_get_intr_flag
        (ds3231_clear_intr_flag (ctrlBus 0 0x8B) DS3231_Interrupt_Alarm_1 [0]).2
        DS3231_Interrupt_None [0]).2.1 = DS3231_Interrupt_Alarm_2 :=
  ⟨⟨by decide, by decide⟩,
    clear_intr_flag_clears_only_requested (ctrlBus 0 0x8B) DS3231_Interrupt_Alarm_1
      DS3231_Interrupt_None [0] [0] (by decide) (by decide),
    by decide, by decide⟩

/-! ## Temperature -/

set_option maxRecDepth 100000 in
/-- Shifting the first temperature byte left by two and or-ing in the top two bits of the
second gives `b0 * 4 + q`. -/
theorem temperature_pack : ∀ b0 < 256, ∀ q < 4, (b0 <<< 2 ||| q) = b0 * 4 + q := by
  decide

set_option maxRecDepth 100000 in
/-- The sign extension of lines 173-178 followed by the `int16_t` cast gives the 10-bit
two's-complement value. -/
theorem temperature_sign : ∀ u < 1024,
    int16_of_uint16
        (if u % 65536 &&& 0x200 ≠ 0 then (u % 65536 ||| 0xFC00) % 65536 else u % 65536)
      = if u < 512 then (u : Int) else (u : Int) - 1024 := by
  decide

/-- The temperature arithmetic on two bytes. -/
theorem temperature_of_two_bytes (b0 b1 : Nat) (h0 : b0 < 256) (h1 : b1 < 256) :
    ds3231_temperature_of_bytes [b0, b1]
      = (((if b0 * 4 + b1 / 64 < 512 then ((b0 * 4 + b1 / 64 : Nat) : Int)
           else ((b0 * 4 + b1 / 64 : Nat) : Int) - 1024 : Int) : ℚ)) / 4 := by
  have hq : b1 / 64 < 4 := by omega
  have hu : b0 * 4 + b1 / 64 < 1024 := by omega
  unfold ds3231_temperature_of_bytes
  simp only [byteAt, List.getD_cons_zero, List.getD_cons_succ, Nat.shiftRight_eq_div_pow,
    Nat.reducePow, temperature_pack b0 h0 (b1 / 64) hq]
  rw [temperature_sign _ hu]
  ring

/-- A read of two bytes delivers two bytes. -/
theorem range_two_map (f : Nat → Nat) : List.map f (List.range 2) = [f 0, f 1] := rfl

/-- C15: a call of `ds3231_get_temperature` with a non-null output that returns `ESP_OK`
yields `raw / 4`, where `raw` is the 10-bit value `u = b0 * 4 + b1 / 64` of the two
temperature register bytes read as two's complement (`u` below 512, `u - 1024` from 512
on), so that `raw` lies in -512..511. -/
theorem get_temperature_quarter_degrees (bus : Bus) (t : ℚ) (stack : List Nat)
    (hok : (ds3231_get_temperature bus (some t) stack).1 = ESP_OK) :
    ∃ u : Nat, ∃ raw : Int,
      u = (bus.regs DS3231_TEMP_REG % 256) * 4 + (bus.regs (DS3231_TEMP_REG + 1) % 256) / 64 ∧
      raw = (if u < 512 then (u : Int) else (u : Int) - 1024) ∧
      -512 ≤ raw ∧ raw ≤ 511 ∧
      (ds3231_get_temperature bus (some t) stack).2.1 = some ((raw : ℚ) / 4) := by
  have hrd : bus.next.1 = ESP_OK := by
    by_contra hne
    have h1 : (ds3231_i2c_read bus DS3231_TEMP_REG stack 2).1 ≠ ESP_OK := by
      rw [i2c_read_result]; exact hne
    have : (ds3231_get_temperature bus (some t) stack).1
        = (ds3231_i2c_read bus DS3231_TEMP_REG stack 2).1 := by
      simp [ds3231_get_temperature, h1]
    exact h1 (this ▸ hok)
  refine ⟨_, _, rfl, rfl, ?_, ?_, ?_⟩
  · split <;> omega
  · split <;> omega
  · simp only [ds3231_get_temperature, i2c_read_success _ _ _ _ hrd, range_two_map,
      Option.isSome_some, and_self, if_true, Nat.add_zero]
    rw [temperature_of_two_bytes _ _ (Nat.mod_lt _ (by decide)) (Nat.mod_lt _ (by decide))]

/-- C15 at the two documented readings: register bytes `(0x19, 0x00)` give +25 degrees and
`(0xE0, 0x00)` give -32 degrees. -/
theorem get_temperature_quarter_degrees_witness :
    ((ds3231_get_temperature (tempBus 0x19 0x00) (some 0) [0, 0]).1 = ESP_OK ∧
      (ds3231_get_temperature (tempBus 0x19 0x00) (some 0) [0, 0]).2.1 = some 25) ∧
    ((ds3231_get_temperature (tempBus 0xE0 0x00) (some 0) [0, 0]).1 = ESP_OK ∧
      (ds3231_get_temperature (tempBus 0xE0 0x00) (some 0) [0, 0]).2.1 = some (-32)) := by
  refine ⟨⟨by decide, ?_⟩, ⟨by decide, ?_⟩⟩
  · obtain ⟨u, raw, hu, hraw, -, -, hval⟩ :=
      get_temperature_quarter_degrees (tempBus 0x19 0x00) 0 [0, 0] (by decide)
    have hu2 : u = 100 := hu.trans (by decide)
    subst hu2
    have hraw2 : raw = 100 := hraw.trans (by decide)
    subst hraw2
    rw [hval]
    norm_num
  · obtain ⟨u, raw, hu, hraw, -, -, hval⟩ :=
      get_temperature_quarter_degrees (tempBus 0xE0 0x00) 0 [0, 0] (by decide)
    have hu2 : u = 896 := hu.trans (by decide)
    subst hu2
    have hraw2 : raw = -128 := hraw.trans (by decide)
    subst hraw2
    rw [hval]
    norm_num

/-! ## Alarm images -/

/-- C16: the alarm-1 image does not carry the day.  For day 23 the encoder leaves the
day units sub-field at 2 (the tens digit) and never assigns the day tens sub-field: over a
zeroed local image the sub-fields are 2 and 0, over a local image of `0xFF` bytes they are
2 and 3, the day byte written is `0x72`, and the read that follows returns day 32. -/
theorem alarm1_day_tens_never_written :
    (ds3231_set_alarm1_image (sampleAlarm DS3231_AlarmType_Alarm1)
        (Internal_DS3231_Alarm1_t.ofBytes [0, 0, 0, 0])).day_1s = 2 ∧
    (ds3231_set_alarm1_image (sampleAlarm DS3231_AlarmType_Alarm1)
        (Internal_DS3231_Alarm1_t.ofBytes [0, 0, 0, 0])).day_10s = 0 ∧
    (ds3231_set_alarm1_image (sampleAlarm DS3231_AlarmType_Alarm1)
        (Internal_DS3231_Alarm1_t.ofBytes [0xFF, 0xFF, 0xFF, 0xFF])).day_1s = 2 ∧
    (ds3231_set_alarm1_image (sampleAlarm DS3231_AlarmType_Alarm1)
        (Internal_DS3231_Alarm1_t.ofBytes [0xFF, 0xFF, 0xFF, 0xFF])).day_10s = 3 ∧
    (ds3231_set_alarm zeroBus (sampleAlarm DS3231_AlarmType_Alarm1)
        [0xFF, 0xFF, 0xFF, 0xFF]).2.log = [BusOp.write 0x07 [0x30, 0x15, 0x10, 0x72]] ∧
    (ds3231_get_alarm
        (ds3231_set_alarm zeroBus (sampleAlarm DS3231_AlarmType_Alarm1)
          [0xFF, 0xFF, 0xFF, 0xFF]).2
        (sampleAlarm DS3231_AlarmType_Alarm1) [0, 0, 0, 0]).2.1.day = 32 := by
  decide

/-- C17: the hour byte written by `ds3231_set_alarm` does not always carry the clock mode
and the high bit.  For the 12-hour alarm 07:15 PM over a zeroed local image, the hour byte
is `0x27` for alarm 1 and for alarm 2: bit 6 (the 12/24 mode bit) is clear.  For a 24-hour
alarm at hour 5 over a local image of `0xFF` bytes, the hour byte is `0x25` for both
alarms: bit 5 (the high bit) is set although the hour is below 20. -/
theorem alarm_hour_byte_keeps_stale_mode_and_high_bits :
    (ds3231_set_alarm zeroBus (eveningAlarm DS3231_AlarmType_Alarm1) [0, 0, 0, 0]).2.log
      = [BusOp.write 0x07 [0xB0, 0x95, 0x27, 0x80]] ∧
    (ds3231_set_alarm zeroBus (eveningAlarm DS3231_AlarmType_Alarm2) [0, 0, 0]).2.log
      = [BusOp.write 0x0B [0x95, 0x27, 0xC3]] ∧
    bits 0x27 6 1 = 0 ∧
    (ds3231_set_alarm zeroBus { sampleAlarm DS3231_AlarmType_Alarm1 with hour := 5 }
        [0xFF, 0xFF, 0xFF, 0xFF]).2.log
      = [BusOp.write 0x07 [0x30, 0x15, 0x25, 0x72]] ∧
    (ds3231_set_alarm zeroBus { sampleAlarm DS3231_AlarmType_Alarm2 with hour := 5 }
        [0xFF, 0xFF, 0xFF]).2.log
      = [BusOp.write 0x0B [0x15, 0x25, 0x23]] ∧
    bits 0x25 5 1 = 1 := by
  decide

/-- C18: in 12-hour mode the third match-enable bit is not written.  For the 12-hour
alarm 1 with alarm rate `0x0F` over a zeroed local image, `a1m1`, `a1m2`, `a1m4` are 1
and `a1m3` is 0, and the read that follows returns alarm rate `0x0B`; for the 12-hour
alarm 2 with alarm rate `0x07`, `a2m2` and `a2m4` are 1 and `a2m3` is 0, and decoding the
image gives alarm rate `0x05`. -/
theorem alarm_third_match_bit_not_written_in_12_hour_mode :
    (eveningAlarm DS3231_AlarmType_Alarm1).alarm_rate = 0x0F ∧
    (ds3231_set_alarm1_image (eveningAlarm DS3231_AlarmType_Alarm1)
        (Internal_DS3231_Alarm1_t.ofBytes [0, 0, 0, 0])).a1m1 = 1 ∧
    (ds3231_set_alarm1_image (eveningAlarm DS3231_AlarmType_Alarm1)
        (Internal_DS3231_Alarm1_t.ofBytes [0, 0, 0, 0])).a1m2 = 1 ∧
    (ds3231_set_alarm1_image (eveningAlarm DS3231_AlarmType_Alarm1)
        (Internal_DS3231_Alarm1_t.ofBytes [0, 0, 0, 0])).a1m3 = 0 ∧
    (ds3231_set_alarm1_image (eveningAlarm DS3231_AlarmType_Alarm1)
        (Internal_DS3231_Alarm1_t.ofBytes [0, 0, 0, 0])).a1m4 = 1 ∧
    (ds3231_get_alarm
        (ds3231_set_alarm zeroBus (eveningAlarm DS3231_AlarmType_Alarm1) [0, 0, 0, 0]).2
        (eveningAlarm DS3231_AlarmType_Alarm1) [0, 0, 0, 0]).2.1.alarm_rate = 0x0B ∧
    (eveningAlarm DS3231_AlarmType_Alarm2).alarm_rate = 0x07 ∧
    (ds3231_set_alarm2_image (eveningAlarm DS3231_AlarmType_Alarm2)
        (Internal_DS3231_Alarm2_t.ofBytes [0, 0, 0])).a2m2 = 1 ∧
    (ds3231_set_alarm2_image (eveningAlarm DS3231_AlarmType_Alarm2)
        (Internal_DS3231_Alarm2_t.ofBytes [0, 0, 0])).a2m3 = 0 ∧
    (ds3231_set_alarm2_image (eveningAlarm DS3231_AlarmType_Alarm2)
        (Internal_DS3231_Alarm2_t.ofBytes [0, 0, 0])).a2m4 = 1 ∧
    (ds3231_get_alarm2_decode (eveningAlarm DS3231_AlarmType_Alarm2)
        (ds3231_set_alarm2_image (eveningAlarm DS3231_AlarmType_Alarm2)
          (Internal_DS3231_Alarm2_t.ofBytes [0, 0, 0]))).alarm_rate = 0x05 := by
  decide

/-! ## Single-bit read-modify-write setters -/

/-- C19: when the register read succeeds, each of the four remaining read-modify-write
setters issues one read and then one write of the same register, and the byte `w` it
writes differs from the byte read in its own bit only: `ds3231_set_osc` puts the requested
value (its low bit) in bit 7 of the control register, `ds3231_set_convert_temperature`
sets bit 5 of the control register, `ds3231_set_32kHz` puts the requested value (its low
bit) in bit 3 of the control/status register, and `ds3231_clear_osc_stop_flag` clears bit 7
of the control/status register. -/
theorem single_bit_setters_change_only_their_bit (bus : Bus) (eosc en32kHz : Nat)
    (stack : List Nat) (hrd : bus.next.1 = ESP_OK) :
    (∃ w, (ds3231_set_osc bus eosc stack).2.log
        = bus.log ++ [BusOp.read DS3231_CTRL_REG 1, BusOp.write DS3231_CTRL_REG [w]] ∧
      bits w 7 1 = eosc % 2 ∧ bits w 0 7 = bits (bus.regs DS3231_CTRL_REG) 0 7) ∧
    (∃ w, (ds3231_set_convert_temperature bus stack).2.log
        = bus.log ++ [BusOp.read DS3231_CTRL_REG 1, BusOp.write DS3231_CTRL_REG [w]] ∧
      bits w 5 1 = 1 ∧ bits w 0 5 = bits (bus.regs DS3231_CTRL_REG) 0 5 ∧
      bits w 6 2 = bits (bus.regs DS3231_CTRL_REG) 6 2) ∧
    (∃ w, (ds3231_set_32kHz bus en32kHz stack).2.log
        = bus.log ++ [BusOp.read DS3231_CS_REG 1, BusOp.write DS3231_CS_REG [w]] ∧
      bits w 3 1 = en32kHz % 2 ∧ bits w 0 3 = bits (bus.regs DS3231_CS_REG) 0 3 ∧
      bits w 4 4 = bits (bus.regs DS3231_CS_REG) 4 4) ∧
    (∃ w, (ds3231_clear_osc_stop_flag bus stack).2.log
        = bus.log ++ [BusOp.read DS3231_CS_REG 1, BusOp.write DS3231_CS_REG [w]] ∧
      bits w 7 1 = 0 ∧ bits w 0 7 = bits (bus.regs DS3231_CS_REG) 0 7) := by
  refine ⟨?_, ?_, ?_, ?_⟩
  · simp only [ds3231_set_osc, get_ctrl_success _ _ hrd, ds3231_set_ctrl,
      ne_eq, not_true_eq_false, if_false, i2c_write_log, Internal_DS3231_Control_t.toBytes,
      List.take, List.append_assoc, List.singleton_append]
    refine ⟨_, rfl, ?_⟩
    generalize bus.regs DS3231_CTRL_REG = c
    simp only [Internal_DS3231_Control_t.ofBytes, bits, byteAt, List.getD_cons_zero,
      Nat.reducePow, Nat.div_one]
    refine ⟨?_, ?_⟩ <;> omega
  · simp only [ds3231_set_convert_temperature, get_ctrl_success _ _ hrd, ds3231_set_ctrl,
      ne_eq, not_true_eq_false, if_false, i2c_write_log, Internal_DS3231_Control_t.toBytes,
      List.take, List.append_assoc, List.singleton_append]
    refine ⟨_, rfl, ?_⟩
    generalize bus.regs DS3231_CTRL_REG = c
    simp only [Internal_DS3231_Control_t.ofBytes, bits, byteAt, List.getD_cons_zero,
      Nat.reducePow, Nat.div_one]
    refine ⟨?_, ?_, ?_⟩ <;> omega
  · simp only [ds3231_set_32kHz, get_cs_success _ _ hrd, ds3231_set_cs,
      ne_eq, not_true_eq_false, if_false, i2c_write_log, Internal_DS3231_CtrlStat_t.toBytes,
      List.take, List.append_assoc, List.singleton_append]
    refine ⟨_, rfl, ?_⟩
    generalize bus.regs DS3231_CS_REG = c
    simp only [Internal_DS3231_CtrlStat_t.ofBytes, bits, byteAt, List.getD_cons_zero,
      Nat.reducePow, Nat.div_one]
    refine ⟨?_, ?_, ?_⟩ <;> omega
  · simp only [ds3231_clear_osc_stop_flag, get_cs_success _ _ hrd, ds3231_set_cs,
      ne_eq, not_true_eq_false, if_false, i2c_write_log, Internal_DS3231_CtrlStat_t.toBytes,
      List.take, List.append_assoc, List.singleton_append]
    refine ⟨_, rfl, ?_⟩
    generalize bus.regs DS3231_CS_REG = c
    simp only [Internal_DS3231_CtrlStat_t.ofBytes, bits, byteAt, List.getD_cons_zero,
      Nat.reducePow, Nat.div_one]
    refine ⟨?_, ?_⟩ <;> omega

/-- C19 on a device whose control register holds `0x5A` and whose control/status register
holds `0xA5`: disabling the oscillator writes `0xDA`, triggering a conversion writes
`0x7A`, enabling the 32kHz output writes `0xAD`, and clearing the oscillator-stopped flag
writes `0x25`. -/
theorem single_bit_setters_change_only_their_bit_witness :
    (ctrlBus 0x5A 0xA5).next.1 = ESP_OK ∧
    ((∃ w, (ds3231_set_osc (ctrlBus 0x5A 0xA5) 1 [0]).2.log
        = (ctrlBus 0x5A 0xA5).log
            ++ [BusOp.read DS3231_CTRL_REG 1, BusOp.write DS3231_CTRL_REG [w]] ∧
      bits w 7 1 = 1 % 2 ∧ bits w 0 7 = bits ((ctrlBus 0x5A 0xA5).regs DS3231_CTRL_REG) 0 7) ∧
    (∃ w, (ds3231_set_convert_temperature (ctrlBus 0x5A 0xA5) [0]).2.log
        = (ctrlBus 0x5A 0xA5).log
            ++ [BusOp.read DS3231_CTRL_REG 1, BusOp.write DS3231_CTRL_REG [w]] ∧
      bits w 5 1 = 1 ∧ bits w 0 5 = bits ((ctrlBus 0x5A 0xA5).regs DS3231_CTRL_REG) 0 5 ∧
      bits w 6 2 = bits ((ctrlBus 0x5A 0xA5).regs DS3231_CTRL_REG) 6 2) ∧
    (∃ w, (ds3231_set_32kHz (ctrlBus 0x5A 0xA5) 1 [0]).2.log
        = (ctrlBus 0x5A 0xA5).log
            ++ [BusOp.read DS3231_CS_REG 1, BusOp.write DS3231_CS_REG [w]] ∧
      bits w 3 1 = 1 % 2 ∧ bits w 0 3 = bits ((ctrlBus 0x5A 0xA5).regs DS3231_CS_REG) 0 3 ∧
      bits w 4 4 = bits ((ctrlBus 0x5A 0xA5).regs DS3231_CS_REG) 4 4) ∧
    (∃ w, (ds3231_clear_osc_stop_flag (ctrlBus 0x5A 0xA5) [0]).2.log
        = (ctrlBus 0x5A 0xA5).log
            ++ [BusOp.read DS3231_CS_REG 1, BusOp.write DS3231_CS_REG [w]] ∧
      bits w 7 1 = 0 ∧ bits w 0 7 = bits ((ctrlBus 0x5A 0xA5).regs DS3231_CS_REG) 0 7)) ∧
    (ds3231_set_osc (ctrlBus 0x5A 0xA5) 1 [0]).2.log
      = [BusOp.read 0x0E 1, BusOp.write 0x0E [0xDA]] ∧
    (ds3231_set_convert_temperature (ctrlBus 0x5A 0xA5) [0]).2.log
      = [BusOp.read 0x0E 1, BusOp.write 0x0E [0x7A]] ∧
    (ds3231_set_32kHz (ctrlBus 0x5A 0xA5) 1 [0]).2.log
      = [BusOp.read 0x0F 1, BusOp.write 0x0F [0xAD]] ∧
    (ds3231_clear_osc_stop_flag (ctrlBus 0x5A 0xA5) [0]).2.log
      = [BusOp.read 0x0F 1, BusOp.write 0x0F [0x25]] :=
  ⟨by decide,
    single_bit_setters_change_only_their_bit (ctrlBus 0x5A 0xA5) 1 1 [0] (by decide),
    by decide, by decide, by decide, by decide⟩

/-! ## Calendar decoding -/

/-- C20: for every calendar register image (the bit-fields held by any seven bytes `d`)
and every prior value `c` of the output, `ds3231_convert_int_calendar` returns: with the
mode bit clear, clock type 24-hour and hour `high * 20 + tens * 10 + units` (am/pm left as
it was); with the mode bit set, clock type 12-hour, hour `tens * 10 + units`, and am/pm PM
exactly when the high bit is set; seconds, minutes, day of month and month as
`tens * 10 + units`, the day of week as stored, and year
`2000 + century * 100 + tens * 10 + units`. -/
theorem convert_int_calendar_fields (c : DS3231_Calendar_t) (d : List Nat) :
    (if (Internal_DS3231_Calendar_t.ofBytes d).mode_12_24h = 0 then
        (ds3231_convert_int_calendar c (Internal_DS3231_Calendar_t.ofBytes d)).clock_type
          = DS3231_ClockType_24_Hour ∧
        (ds3231_convert_int_calendar c (Internal_DS3231_Calendar_t.ofBytes d)).hour
          = (Internal_DS3231_Calendar_t.ofBytes d).am_pm_hour_20 * 20
            + (Internal_DS3231_Calendar_t.ofBytes d).hour_10s * 10
            + (Internal_DS3231_Calendar_t.ofBytes d).hour_1s ∧
        (ds3231_convert_int_calendar c (Internal_DS3231_Calendar_t.ofBytes d)).am_pm = c.am_pm
      else
        (ds3231_convert_int_calendar c (Internal_DS3231_Calendar_t.ofBytes d)).clock_type
          = DS3231_ClockType_12_Hour ∧
        (ds3231_convert_int_calendar c (Internal_DS3231_Calendar_t.ofBytes d)).hour
          = (Internal_DS3231_Calendar_t.ofBytes d).hour_10s * 10
            + (Internal_DS3231_Calendar_t.ofBytes d).hour_1s ∧
        ((ds3231_convert_int_calendar c (Internal_DS3231_Calendar_t.ofBytes d)).am_pm
            = DS3231_PM ↔ (Internal_DS3231_Calendar_t.ofBytes d).am_pm_hour_20 = 1)) ∧
    (ds3231_convert_int_calendar c (Internal_DS3231_Calendar_t.ofBytes d)).seconds
      = (Internal_DS3231_Calendar_t.ofBytes d).seconds_10s * 10
        + (Internal_DS3231_Calendar_t.ofBytes d).seconds_1s ∧
    (ds3231_convert_int_calendar c (Internal_DS3231_Calendar_t.ofBytes d)).minutes
      = (Internal_DS3231_Calendar_t.ofBytes d).minutes_10s * 10
        + (Internal_DS3231_Calendar_t.ofBytes d).minutes_1s ∧
    (ds3231_convert_int_calendar c (Internal_DS3231_Calendar_t.ofBytes d)).day_of_week
      = (Internal_DS3231_Calendar_t.ofBytes d).day_of_week ∧
    (ds3231_convert_int_calendar c (Internal_DS3231_Calendar_t.ofBytes d)).day_of_month
      = (Internal_DS3231_Calendar_t.ofBytes d).day_of_month_10s * 10
        + (Internal_DS3231_Calendar_t.ofBytes d).day_of_month_1s ∧
    (ds3231_convert_int_calendar c (Internal_DS3231_Calendar_t.ofBytes d)).month
      = (Internal_DS3231_Calendar_t.ofBytes d).month_10s * 10
        + (Internal_DS3231_Calendar_t.ofBytes d).month_1s ∧
    (ds3231_convert_int_calendar c (Internal_DS3231_Calendar_t.ofBytes d)).year
      = 2000 + (Internal_DS3231_Calendar_t.ofBytes d).century * 100
        + (Internal_DS3231_Calendar_t.ofBytes d).year_10s * 10
        + (Internal_DS3231_Calendar_t.ofBytes d).year_1s := by
  have a1 := bits_lt (byteAt d 0) 0 4
  have a2 := bits_lt (byteAt d 0) 4 3
  have a3 := bits_lt (byteAt d 1) 0 4
  have a4 := bits_lt (byteAt d 1) 4 3
  have a5 := bits_lt (byteAt d 2) 0 4
  have a6 := bits_lt (byteAt d 2) 4 1
  have a7 := bits_lt (byteAt d 2) 5 1
  have a8 := bits_lt (byteAt d 2) 6 1
  have a9 := bits_lt (byteAt d 3) 0 3
  have a10 := bits_lt (byteAt d 4) 0 4
  have a11 := bits_lt (byteAt d 4) 4 2
  have a12 := bits_lt (byteAt d 5) 0 4
  have a13 := bits_lt (byteAt d 5) 4 1
  have a14 := bits_lt (byteAt d 5) 7 1
  have a15 := bits_lt (byteAt d 6) 0 4
  have a16 := bits_lt (byteAt d 6) 4 4
  simp only [Nat.reducePow] at a1 a2 a3 a4 a5 a6 a7 a8 a9 a10 a11 a12 a13 a14 a15 a16
  simp only [ds3231_convert_int_calendar, Internal_DS3231_Calendar_t.ofBytes]
  by_cases hm : bits (byteAt d 2) 6 1 = 0
  · simp only [hm, ne_eq, not_true_eq_false, if_false, if_true]
    refine ⟨⟨trivial, ?_, trivial⟩, ?_, ?_, ?_, ?_, ?_, ?_⟩ <;> omega
  · simp only [hm, ne_eq, not_false_eq_true, if_false, if_true]
    refine ⟨⟨trivial, ?_, ?_⟩, ?_, ?_, ?_, ?_, ?_, ?_⟩
    · omega
    · by_cases hp : bits (byteAt d 2) 5 1 = 0
      · simp [hp]
      · have : bits (byteAt d 2) 5 1 = 1 := by omega
        simp [this]
    all_goals omega

/-! ## Calendar encoding, field by field -/

/-- The image left by `ds3231_convert_ext_calendar`, field by field: every named bit-field
other than the three of the hour branch is a function of the calendar value, the three of
the hour branch are those left by `ds3231_convert_ext_calendar_hour`, and the unnamed
bit-fields are those of the prior image. -/
theorem ext_calendar_image (v : DS3231_Calendar_t) (out : Internal_DS3231_Calendar_t) :
    ds3231_convert_ext_calendar v out
      = { seconds_1s := v.seconds % 10 % 16
          seconds_10s := v.seconds / 10 % 8
          pad0 := out.pad0
          minutes_1s := v.minutes % 10 % 16
          minutes_10s := v.minutes / 10 % 8
          pad1 := out.pad1
          hour_1s := v.hour % 10 % 16
          hour_10s := (ds3231_convert_ext_calendar_hour v out).hour_10s
          am_pm_hour_20 := (ds3231_convert_ext_calendar_hour v out).am_pm_hour_20
          mode_12_24h := (ds3231_convert_ext_calendar_hour v out).mode_12_24h
          pad2 := out.pad2
          day_of_week := v.day_of_week % 8
          pad3 := out.pad3
          day_of_month_1s := v.day_of_month % 10 % 16
          day_of_month_10s := v.day_of_month / 10 % 4
          pad4 := out.pad4
          month_1s := v.month % 10 % 16
          month_10s := v.month / 10 % 2
          pad5 := out.pad5
          century := if v.year % 65536 > 2099 then 1 else 0
          year_1s :=
            (if v.year % 65536 > 2099 then (v.year % 65536 + 65536 - 2100) % 65536
             else (v.year % 65536 + 65536 - 2000) % 65536) % 10 % 16
          year_10s :=
            (if v.year % 65536 > 2099 then (v.year % 65536 + 65536 - 2100) % 65536
             else (v.year % 65536 + 65536 - 2000) % 65536) / 10 % 16 } := by
  unfold ds3231_convert_ext_calendar ds3231_convert_ext_calendar_year
    ds3231_convert_ext_calendar_hour
  by_cases hy : v.year % 65536 > 2099 <;> by_cases h12 : v.clock_type = DS3231_ClockType_12_Hour
    <;> by_cases h19 : v.hour > 19 <;> by_cases h9 : v.hour > 9
    <;> simp only [hy, h12, h19, h9, if_true, if_false]

/-- The hour part of the encoder in 12-hour mode, and in 24-hour mode from hour 10: the
three bit-fields of the hour branch are assigned from the calendar value. -/
theorem ext_calendar_hour_fields (v : DS3231_Calendar_t) (out : Internal_DS3231_Calendar_t)
    (hh : v.clock_type = DS3231_ClockType_12_Hour ∨ 9 < v.hour) :
    ds3231_convert_ext_calendar_hour v out
      = { out with
          mode_12_24h := (if v.clock_type = DS3231_ClockType_12_Hour then 1 else 0),
          am_pm_hour_20 :=
            (if v.clock_type = DS3231_ClockType_12_Hour then
              (if v.am_pm = DS3231_PM then 1 else 0)
             else if v.hour > 19 then 1 else 0),
          hour_10s :=
            (if v.clock_type = DS3231_ClockType_12_Hour then v.hour / 10 % 2
             else if v.hour > 19 then 0 else v.hour / 10 % 2) } := by
  unfold ds3231_convert_ext_calendar_hour
  by_cases h12 : v.clock_type = DS3231_ClockType_12_Hour
  · simp only [h12, if_true]
  · have h9 : 9 < v.hour := by
      rcases hh with hh | hh
      · exact absurd hh h12
      · exact hh
    by_cases h19 : v.hour > 19
    · simp only [h12, h19, if_true, if_false]
    · simp only [h12, h19, h9, gt_iff_lt, if_true, if_false]

/-- The year part of the encoder for a year 2000..2199. -/
theorem ext_calendar_year_fields (v : DS3231_Calendar_t) (out : Internal_DS3231_Calendar_t)
    (hlo : 2000 ≤ v.year) (hhi : v.year ≤ 2199) :
    ds3231_convert_ext_calendar_year v out
      = { out with century := (if v.year > 2099 then 1 else 0),
                   year_1s := v.year % 10, year_10s := v.year % 100 / 10 } := by
  unfold ds3231_convert_ext_calendar_year
  have h1 : v.year % 65536 = v.year := by omega
  simp only [h1]
  by_cases h : v.year > 2099
  · have h2 : (v.year + 65536 - 2100) % 65536 = v.year - 2100 := by omega
    have h3 : (v.year - 2100) / 10 % 16 = v.year % 100 / 10 := by omega
    have h4 : (v.year - 2100) % 10 % 16 = v.year % 10 := by omega
    simp only [h, if_true, h2, h3, h4]
  · have h2 : (v.year + 65536 - 2000) % 65536 = v.year - 2000 := by omega
    have h3 : (v.year - 2000) / 10 % 16 = v.year % 100 / 10 := by omega
    have h4 : (v.year - 2000) % 10 % 16 = v.year % 10 := by omega
    simp only [h, if_false, h2, h3, h4]

/-- Two BCD digits stored in sub-fields wide enough for them give back the value. -/
theorem bcd_digits_join (x t : Nat) (hx : x / 10 < t) (hb : x < 256) :
    (x / 10 % t * 10 + x % 10 % 16) % 256 = x := by
  have a : x / 10 % t = x / 10 := Nat.mod_eq_of_lt hx
  have b : x % 10 % 16 = x % 10 := by omega
  rw [a, b]
  omega

/-- C21: in 24-hour mode with an hour below 10 the encoder does not produce high bit 0 and
tens 0 for every prior image.  For hour 5 over an image of `0xFF` bytes the mode bit is 0
and the units are 5, but the high bit is 1 and the tens sub-field is 1, as the prior image
had them; for hours 15 and 23 over the same image the sub-fields are as claimed. -/
theorem ext_calendar_hour_below_ten_keeps_prior_bits :
    (ds3231_convert_ext_calendar (calendarAt 5 2024)
      (Internal_DS3231_Calendar_t.ofBytes
        [0xFF, 0xFF, 0xFF, 0xFF, 0xFF, 0xFF, 0xFF])).mode_12_24h = 0 ∧
    (ds3231_convert_ext_calendar (calendarAt 5 2024)
      (Internal_DS3231_Calendar_t.ofBytes
        [0xFF, 0xFF, 0xFF, 0xFF, 0xFF, 0xFF, 0xFF])).am_pm_hour_20 = 1 ∧
    (ds3231_convert_ext_calendar (calendarAt 5 2024)
      (Internal_DS3231_Calendar_t.ofBytes
        [0xFF, 0xFF, 0xFF, 0xFF, 0xFF, 0xFF, 0xFF])).hour_10s = 1 ∧
    (ds3231_convert_ext_calendar (calendarAt 5 2024)
      (Internal_DS3231_Calendar_t.ofBytes
        [0xFF, 0xFF, 0xFF, 0xFF, 0xFF, 0xFF, 0xFF])).hour_1s = 5 ∧
    List.map
      (fun h =>
        ((ds3231_convert_ext_calendar (calendarAt h 2024)
            (Internal_DS3231_Calendar_t.ofBytes
              [0xFF, 0xFF, 0xFF, 0xFF, 0xFF, 0xFF, 0xFF])).am_pm_hour_20,
          (ds3231_convert_ext_calendar (calendarAt h 2024)
            (Internal_DS3231_Calendar_t.ofBytes
              [0xFF, 0xFF, 0xFF, 0xFF, 0xFF, 0xFF, 0xFF])).hour_10s,
          (ds3231_convert_ext_calendar (calendarAt h 2024)
            (Internal_DS3231_Calendar_t.ofBytes
              [0xFF, 0xFF, 0xFF, 0xFF, 0xFF, 0xFF, 0xFF])).hour_1s))
      [15, 23] = [(0, 1, 5), (1, 0, 3)] := by
  decide

/-- C22: for every calendar value within the documented ranges and every prior image, the
image produced by `ds3231_convert_ext_calendar` is well-formed BCD: each units sub-field
is at most 9, the seconds and minutes tens at most 5, the day-of-month tens at most 3, the
month tens at most 1, the year tens at most 9; seconds, minutes, day of month and month are
`tens * 10 + units` of their sub-fields, the year is
`2000 + century * 100 + tens * 10 + units`, the hour units are `hour mod 10`, and the day
of week is stored as it is: no bit-field width truncates a digit. -/
theorem calendar_image_is_well_formed_bcd (v : DS3231_Calendar_t) (out : Internal_DS3231_Calendar_t)
    (hv : calendarInRange v) :
    ((ds3231_convert_ext_calendar v out).seconds_1s ≤ 9 ∧
      (ds3231_convert_ext_calendar v out).minutes_1s ≤ 9 ∧
      (ds3231_convert_ext_calendar v out).hour_1s ≤ 9 ∧
      (ds3231_convert_ext_calendar v out).day_of_month_1s ≤ 9 ∧
      (ds3231_convert_ext_calendar v out).month_1s ≤ 9 ∧
      (ds3231_convert_ext_calendar v out).year_1s ≤ 9) ∧
    ((ds3231_convert_ext_calendar v out).seconds_10s ≤ 5 ∧
      (ds3231_convert_ext_calendar v out).minutes_10s ≤ 5 ∧
      (ds3231_convert_ext_calendar v out).day_of_month_10s ≤ 3 ∧
      (ds3231_convert_ext_calendar v out).month_10s ≤ 1 ∧
      (ds3231_convert_ext_calendar v out).year_10s ≤ 9) ∧
    (v.seconds = (ds3231_convert_ext_calendar v out).seconds_10s * 10
        + (ds3231_convert_ext_calendar v out).seconds_1s ∧
      v.minutes = (ds3231_convert_ext_calendar v out).minutes_10s * 10
        + (ds3231_convert_ext_calendar v out).minutes_1s ∧
      v.hour % 10 = (ds3231_convert_ext_calendar v out).hour_1s ∧
      v.day_of_week = (ds3231_convert_ext_calendar v out).day_of_week ∧
      v.day_of_month = (ds3231_convert_ext_calendar v out).day_of_month_10s * 10
        + (ds3231_convert_ext_calendar v out).day_of_month_1s ∧
      v.month = (ds3231_convert_ext_calendar v out).month_10s * 10
        + (ds3231_convert_ext_calendar v out).month_1s ∧
      v.year = 2000 + (ds3231_convert_ext_calendar v out).century * 100
        + (ds3231_convert_ext_calendar v out).year_10s * 10
        + (ds3231_convert_ext_calendar v out).year_1s) := by
  obtain ⟨hs, hm, -, hw1, hw2, hd1, hd2, hm1, hm2, hy1, hy2⟩ := hv
  rw [ext_calendar_image]
  simp only
  have y0 : v.year % 65536 = v.year := by omega
  rw [y0]
  by_cases hy : v.year > 2099
  · have y1 : (v.year + 65536 - 2100) % 65536 = v.year - 2100 := by omega
    simp only [hy, if_true, y1]
    refine ⟨⟨?_, ?_, ?_, ?_, ?_, ?_⟩, ⟨?_, ?_, ?_, ?_, ?_⟩, ?_, ?_, ?_, ?_, ?_, ?_, ?_⟩ <;> omega
  · have y1 : (v.year + 65536 - 2000) % 65536 = v.year - 2000 := by omega
    simp only [hy, if_false, y1]
    refine ⟨⟨?_, ?_, ?_, ?_, ?_, ?_⟩, ⟨?_, ?_, ?_, ?_, ?_⟩, ?_, ?_, ?_, ?_, ?_, ?_, ?_⟩ <;> omega

/-- C22 at 23:59:59 on 31 December 2199 over an image of `0xFF` bytes. -/
theorem calendar_image_is_well_formed_bcd_witness :
    calendarInRange (calendarAt 23 2199) ∧
    (((ds3231_convert_ext_calendar (calendarAt 23 2199)
        (Internal_DS3231_Calendar_t.ofBytes [0xFF, 0xFF, 0xFF, 0xFF, 0xFF, 0xFF, 0xFF])).toBytes
        = [0xD9, 0xD9, 0xA3, 0xFF, 0xF1, 0xF2, 0x99]) ∧
      ((ds3231_convert_ext_calendar (calendarAt 23 2199)
        (Internal_DS3231_Calendar_t.ofBytes
          [0xFF, 0xFF, 0xFF, 0xFF, 0xFF, 0xFF, 0xFF])).seconds_1s ≤ 9 ∧
      (ds3231_convert_ext_calendar (calendarAt 23 2199)
        (Internal_DS3231_Calendar_t.ofBytes
          [0xFF, 0xFF, 0xFF, 0xFF, 0xFF, 0xFF, 0xFF])).seconds_10s ≤ 5 ∧
      (calendarAt 23 2199).seconds
        = (ds3231_convert_ext_calendar (calendarAt 23 2199)
            (Internal_DS3231_Calendar_t.ofBytes
              [0xFF, 0xFF, 0xFF, 0xFF, 0xFF, 0xFF, 0xFF])).seconds_10s * 10
          + (ds3231_convert_ext_calendar (calendarAt 23 2199)
            (Internal_DS3231_Calendar_t.ofBytes
              [0xFF, 0xFF, 0xFF, 0xFF, 0xFF, 0xFF, 0xFF])).seconds_1s ∧
      (calendarAt 23 2199).year
        = 2000 + (ds3231_convert_ext_calendar (calendarAt 23 2199)
            (Internal_DS3231_Calendar_t.ofBytes
              [0xFF, 0xFF, 0xFF, 0xFF, 0xFF, 0xFF, 0xFF])).century * 100
          + (ds3231_convert_ext_calendar (calendarAt 23 2199)
            (Internal_DS3231_Calendar_t.ofBytes
              [0xFF, 0xFF, 0xFF, 0xFF, 0xFF, 0xFF, 0xFF])).year_10s * 10
          + (ds3231_convert_ext_calendar (calendarAt 23 2199)
            (Internal_DS3231_Calendar_t.ofBytes
              [0xFF, 0xFF, 0xFF, 0xFF, 0xFF, 0xFF, 0xFF])).year_1s)) := by
  have h := calendar_image_is_well_formed_bcd (calendarAt 23 2199)
    (Internal_DS3231_Calendar_t.ofBytes [0xFF, 0xFF, 0xFF, 0xFF, 0xFF, 0xFF, 0xFF]) (by decide)
  exact ⟨by decide, by decide, h.1.1, h.2.1.1, h.2.2.1, h.2.2.2.2.2.2.2.2⟩

/-- C23: `ds3231_convert_ext_calendar` validates nothing: for every calendar value and
every prior image the seconds units are `seconds mod 10` and the seconds tens are
`(seconds / 10) mod 8`; for seconds 70 the units are 0 and the tens are 7, and decoding
that image gives seconds 70. -/
theorem ext_calendar_seconds_not_validated (v c : DS3231_Calendar_t)
    (out : Internal_DS3231_Calendar_t) :
    (ds3231_convert_ext_calendar v out).seconds_1s = v.seconds % 10 ∧
    (ds3231_convert_ext_calendar v out).seconds_10s = v.seconds / 10 % 8 ∧
    (ds3231_convert_ext_calendar { v with seconds := 70 } out).seconds_1s = 0 ∧
    (ds3231_convert_ext_calendar { v with seconds := 70 } out).seconds_10s = 7 ∧
    (ds3231_convert_int_calendar c
      (ds3231_convert_ext_calendar { v with seconds := 70 } out)).seconds = 70 := by
  refine ⟨?_, ?_, ?_, ?_, ?_⟩
  · rw [ext_calendar_image]
    show v.seconds % 10 % 16 = v.seconds % 10
    omega
  · rw [ext_calendar_image]
  · simp only [ext_calendar_image]
  · simp only [ext_calendar_image]
  · simp only [ext_calendar_image, ds3231_convert_int_calendar]
    split <;> simp

/-- C26: for every calendar value within the documented ranges whose hour is at least 10
in 24-hour mode, or any in 12-hour mode, and for every prior image and prior output,
decoding the encoded image returns the original seconds, minutes, hour, day of week, day of
month, month, year and clock type, and the original am/pm in 12-hour mode (in 24-hour mode
the output's am/pm is left as it was). -/
theorem calendar_roundtrip_from_hour_ten (v c : DS3231_Calendar_t)
    (out : Internal_DS3231_Calendar_t) (hv : calendarInRange v)
    (hh : v.clock_type = DS3231_ClockType_12_Hour ∨ 10 ≤ v.hour) :
    (ds3231_convert_int_calendar c (ds3231_convert_ext_calendar v out)).seconds = v.seconds ∧
    (ds3231_convert_int_calendar c (ds3231_convert_ext_calendar v out)).minutes = v.minutes ∧
    (ds3231_convert_int_calendar c (ds3231_convert_ext_calendar v out)).hour = v.hour ∧
    (ds3231_convert_int_calendar c (ds3231_convert_ext_calendar v out)).day_of_week
      = v.day_of_week ∧
    (ds3231_convert_int_calendar c (ds3231_convert_ext_calendar v out)).day_of_month
      = v.day_of_month ∧
    (ds3231_convert_int_calendar c (ds3231_convert_ext_calendar v out)).month = v.month ∧
    (ds3231_convert_int_calendar c (ds3231_convert_ext_calendar v out)).year = v.year ∧
    (ds3231_convert_int_calendar c (ds3231_convert_ext_calendar v out)).clock_type
      = v.clock_type ∧
    (ds3231_convert_int_calendar c (ds3231_convert_ext_calendar v out)).am_pm
      = (if v.clock_type = DS3231_ClockType_12_Hour then v.am_pm else c.am_pm) := by
  obtain ⟨hs, hm, hhr, hw1, hw2, hd1, hd2, hm1, hm2, hy1, hy2⟩ := hv
  have hh2 : v.clock_type = DS3231_ClockType_12_Hour ∨ 9 < v.hour := by
    rcases hh with hh | hh
    · exact Or.inl hh
    · exact Or.inr (by omega)
  simp only [ds3231_convert_int_calendar, ds3231_convert_ext_calendar,
    ext_calendar_year_fields _ _ hy1 hy2, ext_calendar_hour_fields _ _ hh2,
    bcd_digits_join v.seconds 8 (by omega) (by omega),
    bcd_digits_join v.minutes 8 (by omega) (by omega),
    bcd_digits_join v.day_of_month 4 (by omega) (by omega),
    bcd_digits_join v.month 2 (by omega) (by omega)]
  have hdow : v.day_of_week % 8 % 256 = v.day_of_week := by omega
  have hyr : (2000 + (if v.year > 2099 then 1 else 0) * 100 + v.year % 100 / 10 * 10
      + v.year % 10) % 65536 = v.year := by
    split <;> omega
  simp only [hdow, hyr, true_and]
  clear hdow hyr
  by_cases h12 : v.clock_type = DS3231_ClockType_12_Hour
  · simp [h12] at hhr
    simp only [h12, if_true, ne_eq, one_ne_zero, not_false_eq_true,
      bcd_digits_join v.hour 2 (by omega) (by omega), true_and]
    cases hap : v.am_pm <;> simp
  · have h24 : v.clock_type = DS3231_ClockType_24_Hour := by
      cases hct : v.clock_type
      · exact absurd hct h12
      · rfl
    simp [h24] at hhr
    have h9 : 9 < v.hour := by
      rcases hh2 with hh2 | hh2
      · exact absurd hh2 h12
      · exact hh2
    simp only [h24, if_true, if_false, ne_eq, not_true_eq_false, reduceCtorEq, and_true]
    by_cases h19 : v.hour > 19
    · simp only [h19, if_true]
      refine ⟨trivial, trivial, ?_⟩
      omega
    · simp only [h19, if_false]
      have a : v.hour / 10 % 2 = 1 := by omega
      rw [a]
      refine ⟨trivial, trivial, ?_⟩
      omega

/-- C26 at 23:59:59 (24-hour clock) on 31 December 2099, encoded over an image of `0xFF`
bytes and decoded into a blank calendar. -/
theorem calendar_roundtrip_from_hour_ten_witness :
    (calendarInRange (calendarAt 23 2099) ∧
      ((calendarAt 23 2099).clock_type = DS3231_ClockType_12_Hour ∨
        10 ≤ (calendarAt 23 2099).hour)) ∧
    (ds3231_convert_int_calendar blankCalendar
      (ds3231_convert_ext_calendar (calendarAt 23 2099)
        (Internal_DS3231_Calendar_t.ofBytes
          [0xFF, 0xFF, 0xFF, 0xFF, 0xFF, 0xFF, 0xFF]))).seconds = 59 ∧
    (ds3231_convert_int_calendar blankCalendar
      (ds3231_convert_ext_calendar (calendarAt 23 2099)
        (Internal_DS3231_Calendar_t.ofBytes
          [0xFF, 0xFF, 0xFF, 0xFF, 0xFF, 0xFF, 0xFF]))).minutes = 59 ∧
    (ds3231_convert_int_calendar blankCalendar
      (ds3231_convert_ext_calendar (calendarAt 23 2099)
        (Internal_DS3231_Calendar_t.ofBytes
          [0xFF, 0xFF, 0xFF, 0xFF, 0xFF, 0xFF, 0xFF]))).hour = 23 ∧
    (ds3231_convert_int_calendar blankCalendar
      (ds3231_convert_ext_calendar (calendarAt 23 2099)
        (Internal_DS3231_Calendar_t.ofBytes
          [0xFF, 0xFF, 0xFF, 0xFF, 0xFF, 0xFF, 0xFF]))).day_of_week = 7 ∧
    (ds3231_convert_int_calendar blankCalendar
      (ds3231_convert_ext_calendar (calendarAt 23 2099)
        (Internal_DS3231_Calendar_t.ofBytes
          [0xFF, 0xFF, 0xFF, 0xFF, 0xFF, 0xFF, 0xFF]))).day_of_month = 31 ∧
    (ds3231_convert_int_calendar blankCalendar
      (ds3231_convert_ext_calendar (calendarAt 23 2099)
        (Internal_DS3231_Calendar_t.ofBytes
          [0xFF, 0xFF, 0xFF, 0xFF, 0xFF, 0xFF, 0xFF]))).month = 12 ∧
    (ds3231_convert_int_calendar blankCalendar
      (ds3231_convert_ext_calendar (calendarAt 23 2099)
        (Internal_DS3231_Calendar_t.ofBytes
          [0xFF, 0xFF, 0xFF, 0xFF, 0xFF, 0xFF, 0xFF]))).year = 2099 ∧
    (ds3231_convert_int_calendar blankCalendar
      (ds3231_convert_ext_calendar (calendarAt 23 2099)
        (Internal_DS3231_Calendar_t.ofBytes
          [0xFF, 0xFF, 0xFF, 0xFF, 0xFF, 0xFF, 0xFF]))).clock_type
      = DS3231_ClockType_24_Hour ∧
    (ds3231_convert_int_calendar blankCalendar
      (ds3231_convert_ext_calendar (calendarAt 23 2099)
        (Internal_DS3231_Calendar_t.ofBytes
          [0xFF, 0xFF, 0xFF, 0xFF, 0xFF, 0xFF, 0xFF]))).am_pm = blankCalendar.am_pm :=
  ⟨⟨by decide, by decide⟩,
    calendar_roundtrip_from_hour_ten (calendarAt 23 2099) blankCalendar
      (Internal_DS3231_Calendar_t.ofBytes [0xFF, 0xFF, 0xFF, 0xFF, 0xFF, 0xFF, 0xFF])
      (by decide) (by decide)⟩

/-! ## Alarm day type, and what the written bytes depend on -/

/-- C24: the alarm-1 encoder does not follow the day-type convention of the alarm-2
encoder and of the decoders.  For the day-of-week alarm, the selector bit written is 0 for
alarm 1 and 1 for alarm 2; for the day-of-month alarm it is 1 for alarm 1 and 0 for
alarm 2; the decoders read a set bit as day of week, so the alarm-1 image of a day-of-week
alarm decodes as day of month. -/
theorem alarm1_day_type_bit_inverted :
    (eveningAlarm DS3231_AlarmType_Alarm1).day_type = DS3231_AlarmDayType_DayOfWeek ∧
    (ds3231_set_alarm1_image (eveningAlarm DS3231_AlarmType_Alarm1)
        (Internal_DS3231_Alarm1_t.ofBytes [0, 0, 0, 0])).day_of_week_or_month = 0 ∧
    (ds3231_set_alarm2_image (eveningAlarm DS3231_AlarmType_Alarm2)
        (Internal_DS3231_Alarm2_t.ofBytes [0, 0, 0])).day_of_week_or_month = 1 ∧
    (sampleAlarm DS3231_AlarmType_Alarm1).day_type = DS3231_AlarmDayType_DayOfMonth ∧
    (ds3231_set_alarm1_image (sampleAlarm DS3231_AlarmType_Alarm1)
        (Internal_DS3231_Alarm1_t.ofBytes [0, 0, 0, 0])).day_of_week_or_month = 1 ∧
    (ds3231_set_alarm2_image (sampleAlarm DS3231_AlarmType_Alarm2)
        (Internal_DS3231_Alarm2_t.ofBytes [0, 0, 0])).day_of_week_or_month = 0 ∧
    (ds3231_get_alarm1_decode (eveningAlarm DS3231_AlarmType_Alarm1)
        (ds3231_set_alarm1_image (eveningAlarm DS3231_AlarmType_Alarm1)
          (Internal_DS3231_Alarm1_t.ofBytes [0, 0, 0, 0]))).day_type
      = DS3231_AlarmDayType_DayOfMonth ∧
    (ds3231_get_alarm2_decode (eveningAlarm DS3231_AlarmType_Alarm2)
        (ds3231_set_alarm2_image (eveningAlarm DS3231_AlarmType_Alarm2)
          (Internal_DS3231_Alarm2_t.ofBytes [0, 0, 0]))).day_type
      = DS3231_AlarmDayType_DayOfWeek := by
  decide

/-- In 24-hour mode from hour 10 the alarm-2 encoder assigns every bit-field of its
image. -/
theorem set_alarm2_image_24h_from_ten (a : DS3231_AlarmSetting_t)
    (x y : Internal_DS3231_Alarm2_t) (h24 : a.clock_type = DS3231_ClockType_24_Hour)
    (h9 : 9 < a.hour) :
    ds3231_set_alarm2_image a x = ds3231_set_alarm2_image a y := by
  unfold ds3231_set_alarm2_image
  by_cases h19 : a.hour > 19
  · simp only [h24, h19, reduceCtorEq, if_true, if_false]
  · simp only [h24, h19, h9, gt_iff_lt, reduceCtorEq, if_true, if_false]

/-- C25 as stated does not hold: the calendar bytes written depend on the local buffer.
The same calendar value, 23:59:59 on 31 December 2024, is written as
`[0x59, 0x59, 0x23, 0x07, 0x31, 0x12, 0x24]` over a zeroed buffer and as
`[0xD9, 0x59, 0x23, 0x07, 0x31, 0x12, 0x24]` over a buffer whose first byte held `0x80`:
the unnamed bit 7 of the seconds byte is never assigned. -/
theorem set_calendar_bytes_depend_on_buffer :
    (ds3231_set_calendar zeroBus (calendarAt 23 2024) [0, 0, 0, 0, 0, 0, 0]).2.log
      = [BusOp.write 0x00 [0x59, 0x59, 0x23, 0x07, 0x31, 0x12, 0x24]] ∧
    (ds3231_set_calendar zeroBus (calendarAt 23 2024) [0x80, 0, 0, 0, 0, 0, 0]).2.log
      = [BusOp.write 0x00 [0xD9, 0x59, 0x23, 0x07, 0x31, 0x12, 0x24]] ∧
    (ds3231_set_calendar zeroBus (calendarAt 23 2024) [0, 0, 0, 0, 0, 0, 0]).2.log
      ≠ (ds3231_set_calendar zeroBus (calendarAt 23 2024) [0x80, 0, 0, 0, 0, 0, 0]).2.log := by
  decide

/-- C25 amended: for a calendar value in 12-hour mode, or in 24-hour mode with an hour
above 9, two runs of `ds3231_set_calendar` whose local buffers agree on the unnamed
(padding) bits of the image give the same result, with the same 7 bytes passed to the bus
write, whatever else the buffers held; and for an alarm-2 setting in 24-hour mode with an
hour above 9, two runs of `ds3231_set_alarm` give the same result, with the same 3 bytes
passed to the bus write, whatever the buffers held. -/
theorem set_bytes_depend_on_value_and_padding (bus : Bus) (v : DS3231_Calendar_t)
    (a : DS3231_AlarmSetting_t) (s1 s2 t1 t2 : List Nat)
    (hh : v.clock_type = DS3231_ClockType_12_Hour ∨ 9 < v.hour)
    (hpad : bits (byteAt s1 0) 7 1 = bits (byteAt s2 0) 7 1 ∧
      bits (byteAt s1 1) 7 1 = bits (byteAt s2 1) 7 1 ∧
      bits (byteAt s1 2) 7 1 = bits (byteAt s2 2) 7 1 ∧
      bits (byteAt s1 3) 3 5 = bits (byteAt s2 3) 3 5 ∧
      bits (byteAt s1 4) 6 2 = bits (byteAt s2 4) 6 2 ∧
      bits (byteAt s1 5) 5 2 = bits (byteAt s2 5) 5 2)
    (ha : a.alarm_type = DS3231_AlarmType_Alarm2)
    (h24 : a.clock_type = DS3231_ClockType_24_Hour) (h9 : 9 < a.hour) :
    ds3231_set_calendar bus v s1 = ds3231_set_calendar bus v s2 ∧
    (ds3231_set_calendar bus v s1).2.log = (ds3231_set_calendar bus v s2).2.log ∧
    ds3231_set_alarm bus a t1 = ds3231_set_alarm bus a t2 ∧
    (ds3231_set_alarm bus a t1).2.log = (ds3231_set_alarm bus a t2).2.log := by
  obtain ⟨p0, p1, p2, p3, p4, p5⟩ := hpad
  have hc : ds3231_convert_ext_calendar v (Internal_DS3231_Calendar_t.ofBytes s1)
      = ds3231_convert_ext_calendar v (Internal_DS3231_Calendar_t.ofBytes s2) := by
    rw [ext_calendar_image, ext_calendar_image, ext_calendar_hour_fields _ _ hh,
      ext_calendar_hour_fields _ _ hh]
    simp only [Internal_DS3231_Calendar_t.ofBytes, p0, p1, p2, p3, p4, p5]
  have hcal : ds3231_set_calendar bus v s1 = ds3231_set_calendar bus v s2 := by
    unfold ds3231_set_calendar
    simp only [hc]
  have h21 : ¬ DS3231_AlarmType_Alarm2 = DS3231_AlarmType_Alarm1 := by decide
  have hal : ds3231_set_alarm bus a t1 = ds3231_set_alarm bus a t2 := by
    unfold ds3231_set_alarm ds3231_set_alarm2
    simp only [ha, h21, if_true, if_false,
      set_alarm2_image_24h_from_ten a (Internal_DS3231_Alarm2_t.ofBytes t1)
        (Internal_DS3231_Alarm2_t.ofBytes t2) h24 h9]
  exact ⟨hcal, by rw [hcal], hal, by rw [hal]⟩

/-- C25 amended, at 23:59:59 on 31 December 2024 over a zeroed buffer and over a buffer
with every named bit set and every padding bit clear, and at the alarm 10:15 on day 23
over a zeroed buffer and over a buffer of `0xFF` bytes. -/
theorem set_bytes_depend_on_value_and_padding_witness :
    (((calendarAt 23 2024).clock_type = DS3231_ClockType_12_Hour ∨
        9 < (calendarAt 23 2024).hour) ∧
      (bits (byteAt [0, 0, 0, 0, 0, 0, 0] 0) 7 1
          = bits (byteAt [0x7F, 0x7F, 0x7F, 0x07, 0x3F, 0x9F, 0xFF] 0) 7 1 ∧
        bits (byteAt [0, 0, 0, 0, 0, 0, 0] 1) 7 1
          = bits (byteAt [0x7F, 0x7F, 0x7F, 0x07, 0x3F, 0x9F, 0xFF] 1) 7 1 ∧
        bits (byteAt [0, 0, 0, 0, 0, 0, 0] 2) 7 1
          = bits (byteAt [0x7F, 0x7F, 0x7F, 0x07, 0x3F, 0x9F, 0xFF] 2) 7 1 ∧
        bits (byteAt [0, 0, 0, 0, 0, 0, 0] 3) 3 5
          = bits (byteAt [0x7F, 0x7F, 0x7F, 0x07, 0x3F, 0x9F, 0xFF] 3) 3 5 ∧
        bits (byteAt [0, 0, 0, 0, 0, 0, 0] 4) 6 2
          = bits (byteAt [0x7F, 0x7F, 0x7F, 0x07, 0x3F, 0x9F, 0xFF] 4) 6 2 ∧
        bits (byteAt [0, 0, 0, 0, 0, 0, 0] 5) 5 2
          = bits (byteAt [0x7F, 0x7F, 0x7F, 0x07, 0x3F, 0x9F, 0xFF] 5) 5 2) ∧
      (sampleAlarm DS3231_AlarmType_Alarm2).alarm_type = DS3231_AlarmType_Alarm2 ∧
      (sampleAlarm DS3231_AlarmType_Alarm2).clock_type = DS3231_ClockType_24_Hour ∧
      9 < (sampleAlarm DS3231_AlarmType_Alarm2).hour) ∧
    (ds3231_set_calendar zeroBus (calendarAt 23 2024) [0, 0, 0, 0, 0, 0, 0]
        = ds3231_set_calendar zeroBus (calendarAt 23 2024)
            [0x7F, 0x7F, 0x7F, 0x07, 0x3F, 0x9F, 0xFF] ∧
      (ds3231_set_calendar zeroBus (calendarAt 23 2024) [0, 0, 0, 0, 0, 0, 0]).2.log
        = (ds3231_set_calendar zeroBus (calendarAt 23 2024)
            [0x7F, 0x7F, 0x7F, 0x07, 0x3F, 0x9F, 0xFF]).2.log ∧
      ds3231_set_alarm zeroBus (sampleAlarm DS3231_AlarmType_Alarm2) [0, 0, 0]
        = ds3231_set_alarm zeroBus (sampleAlarm DS3231_AlarmType_Alarm2) [0xFF, 0xFF, 0xFF] ∧
      (ds3231_set_alarm zeroBus (sampleAlarm DS3231_AlarmType_Alarm2) [0, 0, 0]).2.log
        = (ds3231_set_alarm zeroBus (sampleAlarm DS3231_AlarmType_Alarm2)
            [0xFF, 0xFF, 0xFF]).2.log) :=
  ⟨⟨by decide, by decide, by decide, by decide, by decide⟩,
    set_bytes_depend_on_value_and_padding zeroBus (calendarAt 23 2024)
      (sampleAlarm DS3231_AlarmType_Alarm2) [0, 0, 0, 0, 0, 0, 0]
      [0x7F, 0x7F, 0x7F, 0x07, 0x3F, 0x9F, 0xFF] [0, 0, 0] [0xFF, 0xFF, 0xFF]
      (by decide) (by decide) (by decide) (by decide) (by decide)⟩

/-! ## Interrupt enables: set then get -/

/-- Reassembling the two alarm flags from their tests gives the low two bits of the flag
set. -/
theorem intr_flags_low_bits (f : Nat) :
    ((if f &&& DS3231_Interrupt_Alarm_1 = DS3231_Interrupt_Alarm_1 then 1 else 0)
      ||| (if f &&& DS3231_Interrupt_Alarm_2 = DS3231_Interrupt_Alarm_2 then 2 else 0))
      = f &&& 0x03 := by
  have h3 : f &&& 3 = f % 4 := Nat.and_pow_two_sub_one_eq_mod f 2
  have h1 : f &&& 1 = (f % 4) &&& 1 := by
    rw [← h3, Nat.and_assoc]; rfl
  have h2 : f &&& 2 = (f % 4) &&& 2 := by
    rw [← h3, Nat.and_assoc]; rfl
  simp only [DS3231_Interrupt_Alarm_1, DS3231_Interrupt_Alarm_2, h1, h2, h3]
  have hr : f % 4 < 4 := Nat.mod_lt _ (by decide)
  generalize f % 4 = r at hr
  interval_cases r <;> decide

/-- Supporting lemma: on a device that stores the written byte, whatever the control
register held, when the read of `ds3231_set_intr_en` succeeds and the call returns
`ESP_OK`, a `ds3231_get_intr_en` whose read succeeds returns `ESP_OK` and yields the flag
set masked with `0x03`.  The return value of the set alone does not give this: see
`intr_en_get_after_ok_set_yields_unread_flags`. -/
theorem intr_en_set_then_get (bus : Bus) (intr_flags out : Nat) (stack1 stack2 : List Nat)
    (hrd : bus.next.1 = ESP_OK)
    (hset : (ds3231_set_intr_en bus intr_flags stack1).1 = ESP_OK)
    (hget : (ds3231_set_intr_en bus intr_flags stack1).2.next.1 = ESP_OK) :
    (ds3231_get_intr_en (ds3231_set_intr_en bus intr_flags stack1).2 out stack2).1 = ESP_OK ∧
    (ds3231_get_intr_en (ds3231_set_intr_en bus intr_flags stack1).2 out stack2).2.1
      = intr_flags &&& 0x03 := by
  simp only [ds3231_get_intr_en, get_ctrl_success _ _ hget, if_true, true_and]
  simp only [ds3231_set_intr_en, get_ctrl_success _ _ hrd, ds3231_set_ctrl, if_true] at hset ⊢
  rw [i2c_write_result] at hset
  rw [i2c_write_success _ _ _ _ hset]
  rw [← intr_flags_low_bits]
  generalize bus.regs DS3231_CTRL_REG = c
  simp only [Internal_DS3231_Control_t.toBytes, Internal_DS3231_Control_t.ofBytes, bits, byteAt,
    DS3231_CTRL_REG, List.take, List.getD_cons_zero, List.length_cons, List.length_nil,
    Nat.reducePow, Nat.reduceAdd, Nat.sub_self, le_refl, Nat.lt_add_one, and_self, if_true,
    Nat.div_one]
  have h1 : (if intr_flags ≠ 0 then 1 else 0 : Nat) ≤ 1 := by split <;> omega
  generalize (if intr_flags ≠ 0 then 1 else 0 : Nat) = i at h1 ⊢
  by_cases ha : intr_flags &&& DS3231_Interrupt_Alarm_1 = DS3231_Interrupt_Alarm_1 <;>
  by_cases hb : intr_flags &&& DS3231_Interrupt_Alarm_2 = DS3231_Interrupt_Alarm_2
  all_goals
    simp only [ha, hb, if_true, if_false]
    split_ifs <;> first | rfl | omega

/-- The supporting lemma on a control register holding `0xA4`: each of the four flag sets
none, alarm 1, alarm 2 and both reads back as itself. -/
theorem intr_en_set_then_get_witness :
    ((ctrlBus 0xA4 0).next.1 = ESP_OK ∧
      (ds3231_set_intr_en (ctrlBus 0xA4 0) 0x03 [0]).1 = ESP_OK ∧
      (ds3231_set_intr_en (ctrlBus 0xA4 0) 0x03 [0]).2.next.1 = ESP_OK) ∧
    ((ds3231_get_intr_en (ds3231_set_intr_en (ctrlBus 0xA4 0) 0x03 [0]).2
        DS3231_Interrupt_None [0]).1 = ESP_OK ∧
      (ds3231_get_intr_en (ds3231_set_intr_en (ctrlBus 0xA4 0) 0x03 [0]).2
        DS3231_Interrupt_None [0]).2.1 = 0x03 &&& 0x03) ∧
    List.map
      (fun f =>
        (ds3231_get_intr_en (ds3231_set_intr_en (ctrlBus 0xA4 0) f [0]).2 0xFF [0]).2.1)
      [DS3231_Interrupt_None, DS3231_Interrupt_Alarm_1, DS3231_Interrupt_Alarm_2,
        DS3231_Interrupt_Alarm_1 ||| DS3231_Interrupt_Alarm_2]
      = [DS3231_Interrupt_None, DS3231_Interrupt_Alarm_1, DS3231_Interrupt_Alarm_2,
        DS3231_Interrupt_Alarm_1 ||| DS3231_Interrupt_Alarm_2] :=
  ⟨⟨by decide, by decide, by decide⟩,
    intr_en_set_then_get (ctrlBus 0xA4 0) 0x03 DS3231_Interrupt_None [0] [0]
      (by decide) (by decide) (by decide),
    by decide⟩

/-! ## Interrupt enables after a failed read -/

/-- C13: a call of `ds3231_set_intr_en` that returns `ESP_OK` does not always write the
control byte with the three interrupt bits set from the flag set and bits 3-7 unchanged.
On a device whose control register holds `0x1C` and whose read times out, with the local
image byte holding `0xFF`, the call with the empty flag set returns `ESP_OK` and the
register then holds `0xFF`: bit 2 (interrupt control), bit 0 and bit 1 (alarm enables) are
set although the flag set is zero, and bits 3-7 are `0x1F` where the register held
`0x03`. -/
theorem set_intr_en_ok_return_stores_unread_byte :
    DS3231_Interrupt_None = 0 ∧
    timeoutBus.regs DS3231_CTRL_REG = 0x1C ∧
    (ds3231_set_intr_en timeoutBus DS3231_Interrupt_None [0xFF]).1 = ESP_OK ∧
    (ds3231_set_intr_en timeoutBus DS3231_Interrupt_None [0xFF]).2.regs DS3231_CTRL_REG
      = 0xFF ∧
    bits ((ds3231_set_intr_en timeoutBus DS3231_Interrupt_None [0xFF]).2.regs
      DS3231_CTRL_REG) 2 1 = 1 ∧
    bits ((ds3231_set_intr_en timeoutBus DS3231_Interrupt_None [0xFF]).2.regs
      DS3231_CTRL_REG) 0 1 = 1 ∧
    bits ((ds3231_set_intr_en timeoutBus DS3231_Interrupt_None [0xFF]).2.regs
      DS3231_CTRL_REG) 1 1 = 1 ∧
    bits ((ds3231_set_intr_en timeoutBus DS3231_Interrupt_None [0xFF]).2.regs
      DS3231_CTRL_REG) 3 5 = 0x1F ∧
    bits (timeoutBus.regs DS3231_CTRL_REG) 3 5 = 0x03 := by
  decide

/-- C27: a call of `ds3231_set_intr_en` that returns `ESP_OK` followed by
`ds3231_get_intr_en` does not always yield the flag set masked with `0x03`.  On a device
whose control register holds `0x1C` and whose first transaction times out, with the local
image byte of the set holding `0xFF`, setting the empty flag set returns `ESP_OK`, and the
get that follows returns `ESP_OK` and yields `0x03`, both alarms, where the flag set
masked with `0x03` is 0. -/
theorem intr_en_get_after_ok_set_yields_unread_flags :
    (ds3231_set_intr_en timeoutBus DS3231_Interrupt_None [0xFF]).1 = ESP_OK ∧
    (ds3231_get_intr_en (ds3231_set_intr_en timeoutBus DS3231_Interrupt_None [0xFF]).2
      DS3231_Interrupt_None [0]).1 = ESP_OK ∧
    (ds3231_get_intr_en (ds3231_set_intr_en timeoutBus DS3231_Interrupt_None [0xFF]).2
      DS3231_Interrupt_None [0]).2.1 = 0x03 ∧
    DS3231_Interrupt_None &&& 0x03 = 0 ∧
    (ds3231_get_intr_en (ds3231_set_intr_en timeoutBus DS3231_Interrupt_None [0xFF]).2
      DS3231_Interrupt_None [0]).2.2.log
      = [BusOp.read 0x0E 1, BusOp.write 0x0E [0xFF], BusOp.read 0x0E 1] := by
  decide

end DS3231
